import Mathlib

/-!
Verification development for the deployment-configuration resolution and
validation engine of the chatbot repository (bin/config-loader.ts together
with the deployment-manifest schema in bin/config-schema.ts).

The embedding models the engine on structurally well-formed documents: a
raw override document is represented with the primitive Lean type matching
each zod field (required zod fields are non-optional, enumerated zod fields
are Lean inductives), so zod "invalid type" aborts cannot occur, and the
remaining behaviour of `DeploymentManifestSchema.safeParse` -- format and
length checks plus `.refine` cross-field rules, all issues aggregated in
declaration order -- is modelled exactly.  Two checks of the source that
call the JavaScript URL constructor (`z.string().url()`) and the zod email
matcher (`z.string().email()`) have no counterpart here; the model treats
documents as living in the domain where those two parses succeed, and no
claim below depends on them.
-/

namespace Chatbot

/-- The enumerated AWS region values accepted by the schema
(`SupportedRegionSchema`). -/
inductive AwsRegion where
  | afSouth1 | apEast1 | apNortheast1 | apNortheast2 | apNortheast3
  | apSouth1 | apSouth2 | apSoutheast1 | apSoutheast2 | apSoutheast3
  | apSoutheast4 | caCentral1 | euCentral1 | euCentral2 | euNorth1
  | euSouth1 | euSouth2 | euWest1 | euWest2 | euWest3
  | ilCentral1 | meCentral1 | meSouth1 | saEast1 | usEast1
  | usEast2 | usWest1 | usWest2
deriving DecidableEq, Repr

/-- The enumerated model providers of `ModelConfigSchema`
(`z.enum(["sagemaker", "bedrock", "openai", "nexus"])`). -/
inductive ModelProvider where
  | sagemaker | bedrock | openai | nexus
deriving DecidableEq, Repr

/-- The enumerated identity-provider types of `CognitoFederationSchema`
(`z.enum(["SAML", "OIDC", "later"])`). -/
inductive ProviderType where
  | saml | oidc | later
deriving DecidableEq, Repr

/-- VPC group: the shape is shared by the override document
(`VpcConfigSchema`, every field optional) and the base configuration
(`config.vpc`, initialised to `{}` by the merge when absent). -/
structure VpcConfig where
  vpcId : Option String
  subnetIds : Option (List String)
  executeApiVpcEndpointId : Option String
  s3VpcEndpointId : Option String
  s3VpcEndpointIps : Option (List String)
deriving DecidableEq, Repr

/-- `CognitoFederationSAMLSchema`: `metadataDocumentUrl` is required. -/
structure SamlConfig where
  metadataDocumentUrl : String
deriving DecidableEq, Repr

/-- `CognitoFederationOIDCSchema`: all three fields are required. -/
structure OidcConfig where
  OIDCClient : String
  OIDCSecret : String
  OIDCIssuerURL : String
deriving DecidableEq, Repr

/-- Cognito-federation group, shared by override document and base
configuration (the merge initialises it to `{}` when absent). -/
structure CognitoFederation where
  enabled : Option Bool
  autoRedirect : Option Bool
  customProviderName : Option String
  customProviderType : Option ProviderType
  cognitoDomain : Option String
  customSAML : Option SamlConfig
  customOIDC : Option OidcConfig
deriving DecidableEq, Repr

/-- `BedrockGuardrailsSchema` as it appears in the override document:
`enabled` required, `identifier` and `version` optional. -/
structure GuardrailsManifest where
  enabled : Bool
  identifier : Option String
  version : Option String
deriving DecidableEq, Repr

/-- Guardrails group of the base configuration; the merge initialises it to
`{ enabled: false, identifier: "", version: "" }` when absent, so all three
fields are concrete. -/
structure GuardrailsConfig where
  enabled : Bool
  identifier : String
  version : String
deriving DecidableEq, Repr

/-- Bedrock section of the override document: only `guardrails`. -/
structure BedrockManifest where
  guardrails : Option GuardrailsManifest
deriving DecidableEq, Repr

/-- Bedrock section of the base configuration as touched by the merge. -/
structure BedrockConfig where
  guardrails : Option GuardrailsConfig
deriving DecidableEq, Repr

/-- `ModelConfigSchema` entry, shared by override document and base
configuration lists (no zod defaults on this schema). -/
structure ModelConfig where
  provider : ModelProvider
  name : String
  dimensions : Option Int
  default : Option Bool
deriving DecidableEq, Repr

/-- Raw `ExternalKnowledgeBaseSchema` entry: `enabled` is
`z.boolean().optional().default(true)`, still optional before parsing. -/
structure ExternalKnowledgeBaseRaw where
  name : String
  knowledgeBaseId : String
  region : Option AwsRegion
  roleArn : Option String
  enabled : Option Bool
deriving DecidableEq, Repr

/-- Validated external knowledge-base entry (zod default applied). -/
structure ExternalKnowledgeBase where
  name : String
  knowledgeBaseId : String
  region : Option AwsRegion
  roleArn : Option String
  enabled : Bool
deriving DecidableEq, Repr

/-- `rag.engines.opensearch`: `enabled` is required. -/
structure OpenSearchEngine where
  enabled : Bool
deriving DecidableEq, Repr

/-- Raw `rag.engines.knowledgeBase` node of the override document. -/
structure KnowledgeBaseEngineRaw where
  enabled : Bool
  external : Option (List ExternalKnowledgeBaseRaw)
deriving DecidableEq, Repr

/-- Validated `rag.engines.knowledgeBase` node. -/
structure KnowledgeBaseEngineManifest where
  enabled : Bool
  external : Option (List ExternalKnowledgeBase)
deriving DecidableEq, Repr

/-- `rag.engines.knowledgeBase` of the base configuration: the merge reads
`config.rag.engines.knowledgeBase.external` unconditionally, so both
fields are concrete. -/
structure KnowledgeBaseEngineConfig where
  enabled : Bool
  external : List ExternalKnowledgeBase
deriving DecidableEq, Repr

/-- Raw `rag.engines` node of the override document. -/
structure RagEnginesRaw where
  opensearch : Option OpenSearchEngine
  knowledgeBase : Option KnowledgeBaseEngineRaw
deriving DecidableEq, Repr

/-- Validated `rag.engines` node of the override document. -/
structure RagEnginesManifest where
  opensearch : Option OpenSearchEngine
  knowledgeBase : Option KnowledgeBaseEngineManifest
deriving DecidableEq, Repr

/-- `rag.engines` of the base configuration (all nodes concrete: the merge
dereferences them without initialisation). -/
structure RagEnginesConfig where
  opensearch : OpenSearchEngine
  knowledgeBase : KnowledgeBaseEngineConfig
deriving DecidableEq, Repr

/-- Raw `rag` section of the override document (`RagConfigSchema`). -/
structure RagRaw where
  enabled : Option Bool
  crossEncodingEnabled : Option Bool
  engines : Option RagEnginesRaw
  embeddingsModels : Option (List ModelConfig)
  crossEncoderModels : Option (List ModelConfig)
deriving DecidableEq, Repr

/-- Validated `rag` section of the override document. -/
structure RagManifest where
  enabled : Option Bool
  crossEncodingEnabled : Option Bool
  engines : Option RagEnginesManifest
  embeddingsModels : Option (List ModelConfig)
  crossEncoderModels : Option (List ModelConfig)
deriving DecidableEq, Repr

/-- `rag` section of the base configuration: the merge dereferences
`config.rag` and its members without initialisation, so every field is
concrete. -/
structure RagConfig where
  enabled : Bool
  crossEncodingEnabled : Bool
  engines : RagEnginesConfig
  embeddingsModels : List ModelConfig
  crossEncoderModels : List ModelConfig
deriving DecidableEq, Repr

/-- Raw `pipeline.codecommit` node (`PipelineCodeCommitSchema`) before
zod defaults are applied. -/
structure PipelineCodeCommitRaw where
  existingRepositoryName : Option String
  createNew : Option Bool
  newRepositoryName : Option String
  seedOnCreate : Option Bool
deriving DecidableEq, Repr

/-- Validated `pipeline.codecommit` node (`seedOnCreate` defaulted to
`false`). -/
structure PipelineCodeCommit where
  existingRepositoryName : Option String
  createNew : Option Bool
  newRepositoryName : Option String
  seedOnCreate : Bool
deriving DecidableEq, Repr

/-- Raw `pipeline` section (`PipelineConfigSchema`) before zod defaults:
`branch` defaults to `"main"` and `requireApproval` to `true`. -/
structure PipelineRaw where
  enabled : Bool
  codecommit : PipelineCodeCommitRaw
  branch : Option String
  requireApproval : Option Bool
  notificationEmail : Option String
deriving DecidableEq, Repr

/-- Validated `pipeline` section; also the shape of `config.pipeline` that
the merge writes wholesale. -/
structure PipelineConfig where
  enabled : Bool
  codecommit : PipelineCodeCommit
  branch : String
  requireApproval : Bool
  notificationEmail : Option String
deriving DecidableEq, Repr

/-- Raw deployment manifest, the shape accepted by
`DeploymentManifestSchema` before defaults (source field `prefix` is named
`prefixStr` here because `prefix` is a Lean keyword). -/
structure DeploymentManifestRaw where
  prefixStr : String
  enableWaf : Option Bool
  createCMKs : Option Bool
  advancedMonitoring : Option Bool
  disableS3AccessLogs : Option Bool
  logArchiveBucketName : Option String
  privateWebsite : Option Bool
  certificate : Option String
  domain : Option String
  vpc : Option VpcConfig
  cognitoFederation : Option CognitoFederation
  bedrock : Option BedrockManifest
  rag : Option RagRaw
  pipeline : Option PipelineRaw
deriving DecidableEq, Repr

/-- Validated deployment manifest (`DeploymentManifest = z.infer<...>`):
identical to the raw shape except that zod defaults inside `pipeline` and
inside external knowledge-base entries have been applied. -/
structure DeploymentManifest where
  prefixStr : String
  enableWaf : Option Bool
  createCMKs : Option Bool
  advancedMonitoring : Option Bool
  disableS3AccessLogs : Option Bool
  logArchiveBucketName : Option String
  privateWebsite : Option Bool
  certificate : Option String
  domain : Option String
  vpc : Option VpcConfig
  cognitoFederation : Option CognitoFederation
  bedrock : Option BedrockManifest
  rag : Option RagManifest
  pipeline : Option PipelineConfig
deriving DecidableEq, Repr

/-- The base configuration (`SystemConfig` as consumed by the merge): the
fields read or written by `applyManifestOverrides`.  Groups that the merge
initialises when absent (`vpc`, `cognitoFederation`, `bedrock`) and the one
the entry point reads with optional chaining (`pipeline`) are `Option`;
`rag` and its members are dereferenced without initialisation, hence
concrete. -/
structure SystemConfig where
  prefixStr : String
  enableWaf : Bool
  createCMKs : Bool
  advancedMonitoring : Bool
  disableS3AccessLogs : Bool
  logArchiveBucketName : Option String
  privateWebsite : Bool
  certificate : Option String
  domain : Option String
  vpc : Option VpcConfig
  cognitoFederation : Option CognitoFederation
  bedrock : Option BedrockConfig
  rag : RagConfig
  pipeline : Option PipelineConfig
deriving DecidableEq, Repr

/-! ### String-format predicates

Each definition below is the decidable Lean rendering of one fixed regular
expression of the schema, written out over the character list of the
string. -/

/-- Characters matched by the class `[a-f0-9]`. -/
def isHexLower (c : Char) : Bool :=
  (97 ≤ c.toNat && c.toNat ≤ 102) || c.isDigit

/-- Characters matched by the class `[a-z]`. -/
def isLowerAlpha (c : Char) : Bool :=
  97 ≤ c.toNat && c.toNat ≤ 122

/-- Characters matched by the class `[a-z0-9]`. -/
def isLowerAlnum (c : Char) : Bool :=
  isLowerAlpha c || c.isDigit

/-- Characters matched by the class `[a-zA-Z0-9]`. -/
def isAlnum (c : Char) : Bool :=
  c.isAlpha || c.isDigit

/-- The leading characters of `p` at the front of `s`
(kernel-computable rendering of `String.startsWith`). -/
def strStartsWith (p s : String) : Bool :=
  p.toList.isPrefixOf s.toList

/-- Split a character list at every occurrence of `sep`
(kernel-computable rendering of `String.splitOn` for a one-character
separator). -/
def splitCharAux (sep : Char) : List Char → List Char → List (List Char)
  | acc, [] => [acc.reverse]
  | acc, c :: cs =>
    if c = sep then acc.reverse :: splitCharAux sep [] cs
    else splitCharAux sep (c :: acc) cs

/-- Split a string at every occurrence of `sep`. -/
def splitChar (sep : Char) (s : String) : List (List Char) :=
  splitCharAux sep [] s.toList

/-- `^vpc-[a-f0-9]{8,17}$` (the `vpcId` format of `VpcConfigSchema`). -/
def vpcIdOk (s : String) : Bool :=
  strStartsWith "vpc-" s &&
    (let rest := s.toList.drop 4
     8 ≤ rest.length && rest.length ≤ 17 && rest.all isHexLower)

/-- `^subnet-[a-f0-9]{8,17}$` (the `subnetIds` element format). -/
def subnetIdOk (s : String) : Bool :=
  strStartsWith "subnet-" s &&
    (let rest := s.toList.drop 7
     8 ≤ rest.length && rest.length ≤ 17 && rest.all isHexLower)

/-- `^vpce-[a-f0-9]+$` (the VPC endpoint id format, used for both
`executeApiVpcEndpointId` and `s3VpcEndpointId`). -/
def vpceIdOk (s : String) : Bool :=
  strStartsWith "vpce-" s &&
    (let rest := s.toList.drop 5
     1 ≤ rest.length && rest.all isHexLower)

/-- One dotted quad component: 1 to 3 decimal digits. -/
def ipPartOk (cs : List Char) : Bool :=
  1 ≤ cs.length && cs.length ≤ 3 && cs.all Char.isDigit

/-- `^(\d{1,3}\.){3}\d{1,3}$` (the `s3VpcEndpointIps` element format). -/
def ipOk (s : String) : Bool :=
  let parts := splitChar '.' s
  parts.length = 4 && parts.all ipPartOk

/-- `^[a-zA-Z][a-zA-Z0-9-]*$` (the deployment `prefix` format). -/
def prefixFormatOk (s : String) : Bool :=
  match s.toList with
  | [] => false
  | c :: cs => c.isAlpha && cs.all (fun d => isAlnum d || d = '-')

/-- `^[a-z0-9][a-z0-9.-]*[a-z0-9]$` (the `logArchiveBucketName` format). -/
def bucketNameOk (s : String) : Bool :=
  let cs := s.toList
  2 ≤ cs.length &&
    (match cs.head? with | some c => isLowerAlnum c | none => false) &&
    (match cs.getLast? with | some c => isLowerAlnum c | none => false) &&
    cs.all (fun c => isLowerAlnum c || c = '.' || c = '-')

/-- `^arn:aws:acm:[a-z0-9-]+:\d{12}:certificate\/[a-f0-9-]+$` (the ACM
certificate ARN format). -/
def acmArnOk (s : String) : Bool :=
  match splitChar ':' s with
  | [a, b, c, region, account, rest] =>
    a = "arn".toList && b = "aws".toList && c = "acm".toList &&
      (1 ≤ region.length && region.all (fun ch => isLowerAlnum ch || ch = '-')) &&
      (account.length = 12 && account.all Char.isDigit) &&
      "certificate/".toList.isPrefixOf rest &&
      (let idPart := rest.drop 12
       1 ≤ idPart.length && idPart.all (fun ch => isHexLower ch || ch = '-'))
  | _ => false

/-- `^arn:aws:secretsmanager:[a-z0-9-]+:\d{12}:secret:.+$` (the Secrets
Manager ARN format of `OIDCSecret`); the trailing `.+` may itself contain
colons. -/
def secretsArnOk (s : String) : Bool :=
  match splitChar ':' s with
  | a :: b :: c :: region :: account :: secretKw :: rest =>
    a = "arn".toList && b = "aws".toList && c = "secretsmanager".toList &&
      (1 ≤ region.length && region.all (fun ch => isLowerAlnum ch || ch = '-')) &&
      (account.length = 12 && account.all Char.isDigit) &&
      secretKw = "secret".toList &&
      (match rest with
       | [] => false
       | [one] => one ≠ []
       | _ => true)
  | _ => false

/-- `^arn:aws:iam::\d{12}:role\/.+$` (the IAM role ARN format of
`roleArn`); the trailing `.+` may itself contain colons. -/
def iamRoleArnOk (s : String) : Bool :=
  match splitChar ':' s with
  | a :: b :: c :: empty :: account :: rest =>
    a = "arn".toList && b = "aws".toList && c = "iam".toList && empty = [] &&
      (account.length = 12 && account.all Char.isDigit) &&
      (match rest with
       | [] => false
       | first :: more =>
         "role/".toList.isPrefixOf first && (more ≠ [] || 5 < first.length))
  | _ => false

/-- One domain label: `[a-zA-Z0-9]([a-zA-Z0-9-]{0,61}[a-zA-Z0-9])?`. -/
def domainLabelOk (cs : List Char) : Bool :=
  1 ≤ cs.length && cs.length ≤ 63 &&
    (match cs.head? with | some c => isAlnum c | none => false) &&
    (match cs.getLast? with | some c => isAlnum c | none => false) &&
    cs.all (fun c => isAlnum c || c = '-')

/-- `^([a-zA-Z0-9]([a-zA-Z0-9-]{0,61}[a-zA-Z0-9])?\.)+[a-zA-Z]{2,}$`
(the `domain` format: one or more labels, then an alphabetic TLD). -/
def domainOk (s : String) : Bool :=
  let parts := splitChar '.' s
  match parts.getLast? with
  | none => false
  | some tld =>
    2 ≤ parts.length &&
      (2 ≤ tld.length && tld.all Char.isAlpha) &&
      (parts.dropLast.all domainLabelOk)

/-- `^[a-z0-9-]+$` (the `cognitoDomain` format). -/
def cognitoDomainOk (s : String) : Bool :=
  1 ≤ s.length && s.toList.all (fun c => isLowerAlnum c || c = '-')

/-- `^[a-zA-Z0-9_-]+$` (provider names, OIDC client ids, external index
names). -/
def nameFormatOk (s : String) : Bool :=
  1 ≤ s.length && s.toList.all (fun c => isAlnum c || c = '_' || c = '-')

/-- `^[a-z0-9]+$` (the Bedrock guardrail identifier format). -/
def guardrailIdOk (s : String) : Bool :=
  1 ≤ s.length && s.toList.all isLowerAlnum

/-- `^[A-Z0-9]+$` (the Knowledge Base id character format). -/
def kbIdCharsOk (s : String) : Bool :=
  1 ≤ s.length && s.toList.all (fun c => c.isUpper || c.isDigit)

/-- `^[a-zA-Z0-9._-]+$` (the CodeCommit repository name format). -/
def repoNameOk (s : String) : Bool :=
  1 ≤ s.length && s.toList.all (fun c => isAlnum c || c = '.' || c = '_' || c = '-')

/-- JavaScript string truthiness of an optional string field
(`!!data.field`): present and non-empty. -/
def truthyStr (o : Option String) : Bool :=
  match o with
  | some s => s ≠ ""
  | none => false

/-- JavaScript truthiness of an optional boolean field (`!!data.field`):
present and `true`. -/
def truthyBool (o : Option Bool) : Bool :=
  match o with
  | some b => b
  | none => false

/-! ### Schema validation

`DeploymentManifestSchema.safeParse` walks the declared shape in order,
collecting one issue per failed check into a single list; an attached
`.refine` runs after the fields of its object and appends one issue at its
declared path.  `validateErrors` below reproduces that issue list for
structurally well-formed documents. -/

/-- One zod issue, after `formatValidationErrors` has joined the path with
dots. -/
structure FieldError where
  path : String
  message : String
deriving DecidableEq, Repr

/-- An optional string field violates its format check: present and
failing. -/
def optViol (o : Option String) (ok : String → Bool) : Bool :=
  match o with
  | some s => !ok s
  | none => false

/-- Issue list of one optional string field with one format check. -/
def optErr (o : Option String) (ok : String → Bool) (path msg : String) :
    List FieldError :=
  if optViol o ok then [⟨path, msg⟩] else []

/-- An optional string field of the `.optional().or(z.literal(""))` shape
violates its format check: present, non-empty and failing (the empty
string is accepted by the literal branch of the union). -/
def orEmptyViol (o : Option String) (ok : String → Bool) : Bool :=
  match o with
  | some s => s ≠ "" && !ok s
  | none => false

/-- Issue list of one `.optional().or(z.literal(""))` string field. -/
def orEmptyErr (o : Option String) (ok : String → Bool) (path msg : String) :
    List FieldError :=
  if orEmptyViol o ok then [⟨path, msg⟩] else []

/-- Per-element issues of a string array field, with zod index paths. -/
def elemErrorsAux (pathBase msg : String) (ok : String → Bool) :
    Nat → List String → List FieldError
  | _, [] => []
  | i, x :: xs =>
    (if ok x then [] else [⟨pathBase ++ "." ++ toString i, msg⟩]) ++
      elemErrorsAux pathBase msg ok (i + 1) xs

/-- Issues of the required `prefix` field: `min(1)`, `max(16)` and the
format regex, in chain order. -/
def prefixErrors (s : String) : List FieldError :=
  (if s.length < 1 then [⟨"prefix", "Prefix is required"⟩] else []) ++
    (if 16 < s.length then [⟨"prefix", "Prefix must be at most 16 characters"⟩] else []) ++
    (if prefixFormatOk s then [] else
      [⟨"prefix", "Prefix must start with a letter and contain only letters, numbers, and hyphens"⟩])

/-- Issues of `logArchiveBucketName`: empty string accepted via the union
literal, otherwise `min(3)`, `max(63)` and the bucket-name regex. -/
def logArchiveErrors (o : Option String) : List FieldError :=
  match o with
  | none => []
  | some s =>
    if s = "" then [] else
      (if s.length < 3 then [⟨"logArchiveBucketName", "S3 bucket name must be at least 3 characters"⟩] else []) ++
        (if 63 < s.length then [⟨"logArchiveBucketName", "S3 bucket name must be at most 63 characters"⟩] else []) ++
        (if bucketNameOk s then [] else
          [⟨"logArchiveBucketName", "Invalid S3 bucket name format. Must start and end with lowercase letter or number."⟩])

/-- The `VpcConfigSchema` refinement is violated: `s3VpcEndpointIps`
present and non-empty while `s3VpcEndpointId` is not truthy. -/
def s3CompanionViolated (v : VpcConfig) : Bool :=
  match v.s3VpcEndpointIps with
  | some ips => 0 < ips.length && !truthyStr v.s3VpcEndpointId
  | none => false

/-- Issues of the `vpc` group: field checks in declaration order, then the
companion-pair refinement at path `vpc.s3VpcEndpointId`. -/
def vpcErrors (v : VpcConfig) : List FieldError :=
  optErr v.vpcId vpcIdOk "vpc.vpcId"
      "Invalid VPC ID format. Expected: vpc-xxxxxxxx or vpc-xxxxxxxxxxxxxxxxx" ++
    (match v.subnetIds with
     | none => []
     | some xs =>
       (if xs.length < 1 then
         [⟨"vpc.subnetIds", "At least one subnet ID is required when specifying subnetIds"⟩] else []) ++
         elemErrorsAux "vpc.subnetIds" "Invalid subnet ID format. Expected: subnet-xxxxxxxx" subnetIdOk 0 xs) ++
    optErr v.executeApiVpcEndpointId vpceIdOk "vpc.executeApiVpcEndpointId"
      "Invalid VPC endpoint ID format. Expected: vpce-xxxxxxxx" ++
    optErr v.s3VpcEndpointId vpceIdOk "vpc.s3VpcEndpointId"
      "Invalid S3 VPC endpoint ID format. Expected: vpce-xxxxxxxx" ++
    (match v.s3VpcEndpointIps with
     | none => []
     | some xs =>
       elemErrorsAux "vpc.s3VpcEndpointIps" "Invalid IP address format. Expected: x.x.x.x" ipOk 0 xs) ++
    (if s3CompanionViolated v then
      [⟨"vpc.s3VpcEndpointId", "s3VpcEndpointId is required when s3VpcEndpointIps is provided"⟩] else [])

/-- First Cognito refinement violated: federation enabled with SAML type
but no truthy SAML metadata URL. -/
def cfSamlRefineViolated (cf : CognitoFederation) : Bool :=
  truthyBool cf.enabled && cf.customProviderType == some ProviderType.saml &&
    !(match cf.customSAML with
      | some s => s.metadataDocumentUrl ≠ ""
      | none => false)

/-- Second Cognito refinement violated: federation enabled with OIDC type
but the OIDC trio is not fully truthy. -/
def cfOidcRefineViolated (cf : CognitoFederation) : Bool :=
  truthyBool cf.enabled && cf.customProviderType == some ProviderType.oidc &&
    !(match cf.customOIDC with
      | some c => c.OIDCClient ≠ "" && c.OIDCSecret ≠ "" && c.OIDCIssuerURL ≠ ""
      | none => false)

/-- Third Cognito refinement violated: federation enabled, type not
`later`, and no truthy provider name. -/
def cfNameRefineViolated (cf : CognitoFederation) : Bool :=
  truthyBool cf.enabled && cf.customProviderType != some ProviderType.later &&
    !truthyStr cf.customProviderName

/-- Issues of the `cognitoFederation` group: field checks in declaration
order, then the three refinements in chain order. -/
def cfErrors (cf : CognitoFederation) : List FieldError :=
  (match cf.customProviderName with
   | none => []
   | some s =>
     (if s.length < 1 then
       [⟨"cognitoFederation.customProviderName", "Provider name is required when federation is enabled"⟩] else []) ++
       (if 32 < s.length then
         [⟨"cognitoFederation.customProviderName", "Provider name must be at most 32 characters"⟩] else []) ++
       (if nameFormatOk s then [] else
         [⟨"cognitoFederation.customProviderName", "Provider name must contain only alphanumeric characters, hyphens, and underscores"⟩])) ++
    optErr cf.cognitoDomain cognitoDomainOk "cognitoFederation.cognitoDomain"
      "Cognito domain must contain only lowercase letters, numbers, and hyphens" ++
    (match cf.customSAML with
     | none => []
     | some s =>
       if strStartsWith "https://" s.metadataDocumentUrl then [] else
         [⟨"cognitoFederation.customSAML.metadataDocumentUrl", "SAML metadata URL must use HTTPS"⟩]) ++
    (match cf.customOIDC with
     | none => []
     | some c =>
       (if c.OIDCClient.length < 1 then
         [⟨"cognitoFederation.customOIDC.OIDCClient", "OIDC Client ID is required"⟩] else []) ++
         (if 255 < c.OIDCClient.length then
           [⟨"cognitoFederation.customOIDC.OIDCClient", "OIDC Client ID must be at most 255 characters"⟩] else []) ++
         (if nameFormatOk c.OIDCClient then [] else
           [⟨"cognitoFederation.customOIDC.OIDCClient", "OIDC Client ID must contain only alphanumeric characters, hyphens, and underscores"⟩]) ++
         (if secretsArnOk c.OIDCSecret then [] else
           [⟨"cognitoFederation.customOIDC.OIDCSecret", "Invalid Secrets Manager ARN format. Expected: arn:aws:secretsmanager:region:account-id:secret:name"⟩]) ++
         (if strStartsWith "https://" c.OIDCIssuerURL then [] else
           [⟨"cognitoFederation.customOIDC.OIDCIssuerURL", "OIDC Issuer URL must use HTTPS"⟩])) ++
    (if cfSamlRefineViolated cf then
      [⟨"cognitoFederation.customSAML.metadataDocumentUrl", "SAML metadata URL is required when provider type is SAML"⟩] else []) ++
    (if cfOidcRefineViolated cf then
      [⟨"cognitoFederation.customOIDC", "OIDC configuration (OIDCClient, OIDCSecret, OIDCIssuerURL) is required when provider type is OIDC"⟩] else []) ++
    (if cfNameRefineViolated cf then
      [⟨"cognitoFederation.customProviderName", "Provider name is required when federation is enabled"⟩] else [])

/-- The guardrails refinement is violated: enabled without a truthy
identifier and version. -/
def guardrailsRefineViolated (g : GuardrailsManifest) : Bool :=
  g.enabled && !(truthyStr g.identifier && truthyStr g.version)

/-- Issues of `bedrock.guardrails`: the identifier format check, then the
refinement attributed to `bedrock.guardrails.identifier`. -/
def guardrailsErrors (g : GuardrailsManifest) : List FieldError :=
  optErr g.identifier guardrailIdOk "bedrock.guardrails.identifier"
      "Guardrail identifier must contain only lowercase alphanumeric characters" ++
    (if guardrailsRefineViolated g then
      [⟨"bedrock.guardrails.identifier", "Guardrail identifier and version are required when guardrails are enabled"⟩] else [])

/-- Issues of the `bedrock` section. -/
def bedrockErrors (b : BedrockManifest) : List FieldError :=
  match b.guardrails with
  | none => []
  | some g => guardrailsErrors g

/-- Issues of one external knowledge-base entry, in field order. -/
def kbEntryErrors (pathBase : String) (e : ExternalKnowledgeBaseRaw) :
    List FieldError :=
  (if e.name.length < 1 then [⟨pathBase ++ ".name", "Knowledge Base name is required"⟩] else []) ++
    (if nameFormatOk e.name then [] else
      [⟨pathBase ++ ".name", "Name must contain only alphanumeric characters, hyphens, and underscores"⟩]) ++
    (if e.knowledgeBaseId.length = 10 then [] else
      [⟨pathBase ++ ".knowledgeBaseId", "Knowledge Base ID must be exactly 10 characters"⟩]) ++
    (if kbIdCharsOk e.knowledgeBaseId then [] else
      [⟨pathBase ++ ".knowledgeBaseId", "Knowledge Base ID must be uppercase alphanumeric"⟩]) ++
    optErr e.roleArn iamRoleArnOk (pathBase ++ ".roleArn") "Invalid IAM role ARN format"

/-- Issues of an external knowledge-base list, with zod index paths. -/
def kbListErrorsAux (pathBase : String) :
    Nat → List ExternalKnowledgeBaseRaw → List FieldError
  | _, [] => []
  | i, e :: es =>
    kbEntryErrors (pathBase ++ "." ++ toString i) e ++
      kbListErrorsAux pathBase (i + 1) es

/-- Issues of one model descriptor entry (`ModelConfigSchema`). -/
def modelEntryErrors (pathBase : String) (mc : ModelConfig) :
    List FieldError :=
  (if mc.name.length < 1 then [⟨pathBase ++ ".name", "Model name is required"⟩] else []) ++
    (match mc.dimensions with
     | none => []
     | some d => if 0 < d then [] else
       [⟨pathBase ++ ".dimensions", "Dimensions must be a positive number"⟩])

/-- Issues of a model descriptor list, with zod index paths. -/
def modelListErrorsAux (pathBase : String) :
    Nat → List ModelConfig → List FieldError
  | _, [] => []
  | i, mc :: mcs =>
    modelEntryErrors (pathBase ++ "." ++ toString i) mc ++
      modelListErrorsAux pathBase (i + 1) mcs

/-- Some retrieval engine is switched on
(`data.engines?.opensearch?.enabled || data.engines?.knowledgeBase?.enabled`). -/
def ragEngineOn (r : RagRaw) : Bool :=
  match r.engines with
  | none => false
  | some e =>
    (match e.opensearch with | some o => o.enabled | none => false) ||
      (match e.knowledgeBase with | some k => k.enabled | none => false)

/-- The `RagConfigSchema` refinement is violated: RAG enabled with no
engine switched on. -/
def ragRefineViolated (r : RagRaw) : Bool :=
  truthyBool r.enabled && !ragEngineOn r

/-- Issues of the external knowledge-base list of the `rag` section. -/
def ragKbExternalErrors (r : RagRaw) : List FieldError :=
  match r.engines with
  | none => []
  | some e =>
    match e.knowledgeBase with
    | none => []
    | some k =>
      match k.external with
      | none => []
      | some xs => kbListErrorsAux "rag.engines.knowledgeBase.external" 0 xs

/-- Issues of the embeddings-model list of the `rag` section. -/
def ragEmbErrors (r : RagRaw) : List FieldError :=
  match r.embeddingsModels with
  | none => []
  | some xs => modelListErrorsAux "rag.embeddingsModels" 0 xs

/-- Issues of the cross-encoder-model list of the `rag` section. -/
def ragCrossErrors (r : RagRaw) : List FieldError :=
  match r.crossEncoderModels with
  | none => []
  | some xs => modelListErrorsAux "rag.crossEncoderModels" 0 xs

/-- Issues of the `rag` section: list entry checks in declaration order,
then the engine refinement at path `rag.engines`. -/
def ragErrors (r : RagRaw) : List FieldError :=
  ragKbExternalErrors r ++
    ragEmbErrors r ++
    ragCrossErrors r ++
    (if ragRefineViolated r then
      [⟨"rag.engines", "At least one RAG engine (OpenSearch or Knowledge Base) must be enabled when RAG is enabled"⟩] else [])

/-- Issues of an optional CodeCommit repository name: `min(1)`, `max(100)`
and the repository-name regex. -/
def repoNameErrors (o : Option String) (path : String) : List FieldError :=
  match o with
  | none => []
  | some s =>
    (if s.length < 1 then [⟨path, "String must contain at least 1 character(s)"⟩] else []) ++
      (if 100 < s.length then [⟨path, "String must contain at most 100 character(s)"⟩] else []) ++
      (if repoNameOk s then [] else
        [⟨path, "Invalid CodeCommit repository name. Only alphanumeric, dots, hyphens, and underscores."⟩])

/-- First CodeCommit refinement violated: the truthiness of
`existingRepositoryName` equals the truthiness of `createNew` (the source
requires them to differ). -/
def ccExactlyOneViolated (c : PipelineCodeCommitRaw) : Bool :=
  truthyStr c.existingRepositoryName == truthyBool c.createNew

/-- Second CodeCommit refinement violated: `createNew` truthy without a
truthy `newRepositoryName`. -/
def ccNewNameViolated (c : PipelineCodeCommitRaw) : Bool :=
  truthyBool c.createNew && !truthyStr c.newRepositoryName

/-- Issues of `pipeline.codecommit`: field checks, then the two
refinements in chain order (the first has no explicit path, so zod
attributes it to the object itself). -/
def codecommitErrors (c : PipelineCodeCommitRaw) : List FieldError :=
  repoNameErrors c.existingRepositoryName "pipeline.codecommit.existingRepositoryName" ++
    repoNameErrors c.newRepositoryName "pipeline.codecommit.newRepositoryName" ++
    (if ccExactlyOneViolated c then
      [⟨"pipeline.codecommit", "Provide either existingRepositoryName OR createNew: true, not both"⟩] else []) ++
    (if ccNewNameViolated c then
      [⟨"pipeline.codecommit.newRepositoryName", "newRepositoryName is required when createNew is true"⟩] else [])

/-- Issues of the `pipeline` section (the `notificationEmail` email check
of the source is outside the model, see the header). -/
def pipelineErrors (p : PipelineRaw) : List FieldError :=
  codecommitErrors p.codecommit ++
    (match p.branch with
     | none => []
     | some s =>
       if s.length < 1 then [⟨"pipeline.branch", "String must contain at least 1 character(s)"⟩] else [])

/-- The full issue list of `DeploymentManifestSchema.safeParse`, shape keys
in declaration order. -/
def validateErrors (m : DeploymentManifestRaw) : List FieldError :=
  prefixErrors m.prefixStr ++
    logArchiveErrors m.logArchiveBucketName ++
    orEmptyErr m.certificate acmArnOk "certificate" "Invalid ACM certificate ARN format" ++
    orEmptyErr m.domain domainOk "domain" "Invalid domain format. Example: chat.example.com" ++
    (match m.vpc with | none => [] | some v => vpcErrors v) ++
    (match m.cognitoFederation with | none => [] | some cf => cfErrors cf) ++
    (match m.bedrock with | none => [] | some b => bedrockErrors b) ++
    (match m.rag with | none => [] | some r => ragErrors r) ++
    (match m.pipeline with | none => [] | some p => pipelineErrors p)

/-- `formatValidationErrors`: one `path: message` line per issue. -/
def formatValidationErrors (es : List FieldError) : String :=
  String.intercalate "\n" (es.map (fun e => "  - " ++ e.path ++ ": " ++ e.message))

/-- Zod default on an external knowledge-base entry: `enabled` defaults to
`true`. -/
def parseKbEntry (e : ExternalKnowledgeBaseRaw) : ExternalKnowledgeBase :=
  ⟨e.name, e.knowledgeBaseId, e.region, e.roleArn, e.enabled.getD true⟩

/-- Parsed `rag` section (defaults applied inside external entries). -/
def parseRag (r : RagRaw) : RagManifest :=
  { enabled := r.enabled
    crossEncodingEnabled := r.crossEncodingEnabled
    engines :=
      r.engines.map (fun e =>
        { opensearch := e.opensearch
          knowledgeBase :=
            e.knowledgeBase.map (fun k =>
              { enabled := k.enabled
                external := k.external.map (fun xs => xs.map parseKbEntry) }) })
    embeddingsModels := r.embeddingsModels
    crossEncoderModels := r.crossEncoderModels }

/-- Parsed `pipeline` section: zod defaults `seedOnCreate := false`,
`branch := "main"`, `requireApproval := true`. -/
def parsePipeline (p : PipelineRaw) : PipelineConfig :=
  { enabled := p.enabled
    codecommit :=
      { existingRepositoryName := p.codecommit.existingRepositoryName
        createNew := p.codecommit.createNew
        newRepositoryName := p.codecommit.newRepositoryName
        seedOnCreate := p.codecommit.seedOnCreate.getD false }
    branch := p.branch.getD "main"
    requireApproval := p.requireApproval.getD true
    notificationEmail := p.notificationEmail }

/-- The typed document produced by a successful parse (zod defaults
applied). -/
def applyDefaults (m : DeploymentManifestRaw) : DeploymentManifest :=
  { prefixStr := m.prefixStr
    enableWaf := m.enableWaf
    createCMKs := m.createCMKs
    advancedMonitoring := m.advancedMonitoring
    disableS3AccessLogs := m.disableS3AccessLogs
    logArchiveBucketName := m.logArchiveBucketName
    privateWebsite := m.privateWebsite
    certificate := m.certificate
    domain := m.domain
    vpc := m.vpc
    cognitoFederation := m.cognitoFederation
    bedrock := m.bedrock
    rag := m.rag.map parseRag
    pipeline := m.pipeline.map parsePipeline }

/-- `validateManifest` of `config-loader.ts`: success with the typed
document, or the full aggregated issue list. -/
def validateManifest (m : DeploymentManifestRaw) :
    Except (List FieldError) DeploymentManifest :=
  if validateErrors m = [] then .ok (applyDefaults m)
  else .error (validateErrors m)

/-! ### Constraint table

A flat enumeration of the field constraints enforced by the schema, each
with a standalone decidable violation predicate over the raw document.
Per-element checks of a list field are folded into one coarse constraint
per list ("some element is malformed"), which can only under-count the
issues the validator reports. -/

/-- A field of an optional group is present and satisfies `p`. -/
def presentAnd (o : Option α) (p : α → Bool) : Bool :=
  match o with
  | some x => p x
  | none => false

/-- One schema constraint: the field path it is attributed to and its
violation predicate over the raw document. -/
structure ManifestConstraint where
  path : String
  violated : DeploymentManifestRaw → Bool

/-- Some check of one external knowledge-base entry fails. -/
def kbEntryViolated (e : ExternalKnowledgeBaseRaw) : Bool :=
  decide (e.name.length < 1) || !nameFormatOk e.name ||
    e.knowledgeBaseId.length != 10 || !kbIdCharsOk e.knowledgeBaseId ||
    optViol e.roleArn iamRoleArnOk

/-- Some check of one model descriptor entry fails. -/
def modelEntryViolated (mc : ModelConfig) : Bool :=
  decide (mc.name.length < 1) ||
    presentAnd mc.dimensions (fun d => decide (d ≤ 0))

/-- Constraints on the required `prefix` field. -/
def prefixConstraints : List ManifestConstraint :=
  [⟨"prefix", fun m => decide (m.prefixStr.length < 1)⟩,
   ⟨"prefix", fun m => decide (16 < m.prefixStr.length)⟩,
   ⟨"prefix", fun m => !prefixFormatOk m.prefixStr⟩]

/-- Constraints on `logArchiveBucketName` (empty string exempt). -/
def logArchiveConstraints : List ManifestConstraint :=
  [⟨"logArchiveBucketName", fun m =>
     presentAnd m.logArchiveBucketName (fun s => s != "" && decide (s.length < 3))⟩,
   ⟨"logArchiveBucketName", fun m =>
     presentAnd m.logArchiveBucketName (fun s => s != "" && decide (63 < s.length))⟩,
   ⟨"logArchiveBucketName", fun m =>
     presentAnd m.logArchiveBucketName (fun s => s != "" && !bucketNameOk s)⟩]

/-- Constraints on `certificate` and `domain` (empty string exempt). -/
def websiteConstraints : List ManifestConstraint :=
  [⟨"certificate", fun m => orEmptyViol m.certificate acmArnOk⟩,
   ⟨"domain", fun m => orEmptyViol m.domain domainOk⟩]

/-- Constraints on the `vpc` group, the companion-pair refinement last. -/
def vpcConstraints : List ManifestConstraint :=
  [⟨"vpc.vpcId", fun m => presentAnd m.vpc (fun v => optViol v.vpcId vpcIdOk)⟩,
   ⟨"vpc.subnetIds", fun m =>
     presentAnd m.vpc (fun v => presentAnd v.subnetIds (fun xs => decide (xs.length < 1)))⟩,
   ⟨"vpc.subnetIds", fun m =>
     presentAnd m.vpc (fun v => presentAnd v.subnetIds (fun xs => xs.any (fun x => !subnetIdOk x)))⟩,
   ⟨"vpc.executeApiVpcEndpointId", fun m =>
     presentAnd m.vpc (fun v => optViol v.executeApiVpcEndpointId vpceIdOk)⟩,
   ⟨"vpc.s3VpcEndpointId", fun m =>
     presentAnd m.vpc (fun v => optViol v.s3VpcEndpointId vpceIdOk)⟩,
   ⟨"vpc.s3VpcEndpointIps", fun m =>
     presentAnd m.vpc (fun v => presentAnd v.s3VpcEndpointIps (fun xs => xs.any (fun x => !ipOk x)))⟩,
   ⟨"vpc.s3VpcEndpointId", fun m => presentAnd m.vpc s3CompanionViolated⟩]

/-- Constraints on the `cognitoFederation` group, the three refinements
last. -/
def cfConstraints : List ManifestConstraint :=
  [⟨"cognitoFederation.customProviderName", fun m =>
     presentAnd m.cognitoFederation (fun cf =>
       presentAnd cf.customProviderName (fun s => decide (s.length < 1)))⟩,
   ⟨"cognitoFederation.customProviderName", fun m =>
     presentAnd m.cognitoFederation (fun cf =>
       presentAnd cf.customProviderName (fun s => decide (32 < s.length)))⟩,
   ⟨"cognitoFederation.customProviderName", fun m =>
     presentAnd m.cognitoFederation (fun cf =>
       presentAnd cf.customProviderName (fun s => !nameFormatOk s))⟩,
   ⟨"cognitoFederation.cognitoDomain", fun m =>
     presentAnd m.cognitoFederation (fun cf => optViol cf.cognitoDomain cognitoDomainOk)⟩,
   ⟨"cognitoFederation.customSAML.metadataDocumentUrl", fun m =>
     presentAnd m.cognitoFederation (fun cf =>
       presentAnd cf.customSAML (fun s => !strStartsWith "https://" s.metadataDocumentUrl))⟩,
   ⟨"cognitoFederation.customOIDC.OIDCClient", fun m =>
     presentAnd m.cognitoFederation (fun cf =>
       presentAnd cf.customOIDC (fun c => decide (c.OIDCClient.length < 1)))⟩,
   ⟨"cognitoFederation.customOIDC.OIDCClient", fun m =>
     presentAnd m.cognitoFederation (fun cf =>
       presentAnd cf.customOIDC (fun c => decide (255 < c.OIDCClient.length)))⟩,
   ⟨"cognitoFederation.customOIDC.OIDCClient", fun m =>
     presentAnd m.cognitoFederation (fun cf =>
       presentAnd cf.customOIDC (fun c => !nameFormatOk c.OIDCClient))⟩,
   ⟨"cognitoFederation.customOIDC.OIDCSecret", fun m =>
     presentAnd m.cognitoFederation (fun cf =>
       presentAnd cf.customOIDC (fun c => !secretsArnOk c.OIDCSecret))⟩,
   ⟨"cognitoFederation.customOIDC.OIDCIssuerURL", fun m =>
     presentAnd m.cognitoFederation (fun cf =>
       presentAnd cf.customOIDC (fun c => !strStartsWith "https://" c.OIDCIssuerURL))⟩,
   ⟨"cognitoFederation.customSAML.metadataDocumentUrl", fun m =>
     presentAnd m.cognitoFederation cfSamlRefineViolated⟩,
   ⟨"cognitoFederation.customOIDC", fun m =>
     presentAnd m.cognitoFederation cfOidcRefineViolated⟩,
   ⟨"cognitoFederation.customProviderName", fun m =>
     presentAnd m.cognitoFederation cfNameRefineViolated⟩]

/-- Constraints on `bedrock.guardrails`, the refinement last. -/
def guardrailsConstraints : List ManifestConstraint :=
  [⟨"bedrock.guardrails.identifier", fun m =>
     presentAnd m.bedrock (fun b =>
       presentAnd b.guardrails (fun g => optViol g.identifier guardrailIdOk))⟩,
   ⟨"bedrock.guardrails.identifier", fun m =>
     presentAnd m.bedrock (fun b => presentAnd b.guardrails guardrailsRefineViolated)⟩]

/-- Constraints on the `rag` section (coarse per-list entries), the engine
refinement last. -/
def ragConstraints : List ManifestConstraint :=
  [⟨"rag.engines.knowledgeBase.external", fun m =>
     presentAnd m.rag (fun r =>
       presentAnd r.engines (fun e =>
         presentAnd e.knowledgeBase (fun k =>
           presentAnd k.external (fun xs => xs.any kbEntryViolated))))⟩,
   ⟨"rag.embeddingsModels", fun m =>
     presentAnd m.rag (fun r =>
       presentAnd r.embeddingsModels (fun xs => xs.any modelEntryViolated))⟩,
   ⟨"rag.crossEncoderModels", fun m =>
     presentAnd m.rag (fun r =>
       presentAnd r.crossEncoderModels (fun xs => xs.any modelEntryViolated))⟩,
   ⟨"rag.engines", fun m => presentAnd m.rag ragRefineViolated⟩]

/-- Constraints on the `pipeline` section, the two CodeCommit refinements
last. -/
def pipelineConstraints : List ManifestConstraint :=
  [⟨"pipeline.codecommit.existingRepositoryName", fun m =>
     presentAnd m.pipeline (fun p =>
       presentAnd p.codecommit.existingRepositoryName (fun s => decide (s.length < 1)))⟩,
   ⟨"pipeline.codecommit.existingRepositoryName", fun m =>
     presentAnd m.pipeline (fun p =>
       presentAnd p.codecommit.existingRepositoryName (fun s => decide (100 < s.length)))⟩,
   ⟨"pipeline.codecommit.existingRepositoryName", fun m =>
     presentAnd m.pipeline (fun p =>
       presentAnd p.codecommit.existingRepositoryName (fun s => !repoNameOk s))⟩,
   ⟨"pipeline.codecommit.newRepositoryName", fun m =>
     presentAnd m.pipeline (fun p =>
       presentAnd p.codecommit.newRepositoryName (fun s => decide (s.length < 1)))⟩,
   ⟨"pipeline.codecommit.newRepositoryName", fun m =>
     presentAnd m.pipeline (fun p =>
       presentAnd p.codecommit.newRepositoryName (fun s => decide (100 < s.length)))⟩,
   ⟨"pipeline.codecommit.newRepositoryName", fun m =>
     presentAnd m.pipeline (fun p =>
       presentAnd p.codecommit.newRepositoryName (fun s => !repoNameOk s))⟩,
   ⟨"pipeline.codecommit", fun m =>
     presentAnd m.pipeline (fun p => ccExactlyOneViolated p.codecommit)⟩,
   ⟨"pipeline.codecommit.newRepositoryName", fun m =>
     presentAnd m.pipeline (fun p => ccNewNameViolated p.codecommit)⟩,
   ⟨"pipeline.branch", fun m =>
     presentAnd m.pipeline (fun p =>
       presentAnd p.branch (fun s => decide (s.length < 1)))⟩]

/-- The full constraint table, grouped parallel to `validateErrors`. -/
def manifestConstraints : List ManifestConstraint :=
  prefixConstraints ++ logArchiveConstraints ++ websiteConstraints ++
    vpcConstraints ++ cfConstraints ++ guardrailsConstraints ++
    ragConstraints ++ pipelineConstraints

/-- The number of table constraints a raw document violates. -/
def violatedCount (m : DeploymentManifestRaw) : Nat :=
  (manifestConstraints.filter (fun c => c.violated m)).length

/-! ### Merge engine

`applyManifestOverrides` deep-clones the base configuration and then walks
the manifest in declaration order; every field is written at most once and
no section reads a field another section writes, so the resulting clone is
given field-wise below, with each field value the direct rendering of the
corresponding `if (manifest.x !== undefined)` block of the source.  The
`console.log` call of each block becomes one `ChangeRecord`, collected in
the same order. -/

/-- A logged value (`logOverride` renders `undefined`, scalars, and
objects). -/
inductive Val where
  | vUndefined
  | vStr (s : String)
  | vBool (b : Bool)
  | vProviderType (t : ProviderType)
  | vStrList (xs : List String)
  | vModelList (xs : List ModelConfig)
  | vKbList (xs : List ExternalKnowledgeBase)
  | vPipeline (p : PipelineConfig)
deriving DecidableEq, Repr

/-- Logged value of an optional string field. -/
def ofOptStr (o : Option String) : Val :=
  match o with
  | some s => .vStr s
  | none => .vUndefined

/-- Logged value of an optional boolean field. -/
def ofOptBool (o : Option Bool) : Val :=
  match o with
  | some b => .vBool b
  | none => .vUndefined

/-- Logged value of an optional provider-type field. -/
def ofOptProviderType (o : Option ProviderType) : Val :=
  match o with
  | some t => .vProviderType t
  | none => .vUndefined

/-- Logged value of an optional string-list field. -/
def ofOptStrList (o : Option (List String)) : Val :=
  match o with
  | some xs => .vStrList xs
  | none => .vUndefined

/-- Logged value of an optional pipeline section. -/
def ofOptPipeline (o : Option PipelineConfig) : Val :=
  match o with
  | some p => .vPipeline p
  | none => .vUndefined

/-- One entry of the override log (`logOverride(path, oldValue,
newValue)`). -/
structure ChangeRecord where
  path : String
  oldVal : Val
  newVal : Val
deriving DecidableEq, Repr

/-- Records of one `if (field !== undefined)` block: one record when the
field is present, none otherwise. -/
def optRec (o : Option α) (f : α → ChangeRecord) : List ChangeRecord :=
  match o with
  | some a => [f a]
  | none => []

/-- Number of log entries that reference the given field path. -/
def pathCount (p : String) (rs : List ChangeRecord) : Nat :=
  rs.countP (fun r => r.path == p)

/-- The `{}` the merge assigns to a missing `config.vpc`. -/
def emptyVpc : VpcConfig :=
  ⟨none, none, none, none, none⟩

/-- The `{}` the merge assigns to a missing `config.cognitoFederation`. -/
def emptyCognitoFederation : CognitoFederation :=
  ⟨none, none, none, none, none, none, none⟩

/-- The `{ enabled: false, identifier: "", version: "" }` the merge
assigns to a missing `config.bedrock.guardrails`. -/
def initGuardrails : GuardrailsConfig :=
  ⟨false, "", ""⟩

/-- Field-by-field merge of the `vpc` group into the (possibly freshly
initialised) base group. -/
def mergeVpc (bv v : VpcConfig) : VpcConfig :=
  { vpcId := match v.vpcId with | some x => some x | none => bv.vpcId
    subnetIds := match v.subnetIds with | some x => some x | none => bv.subnetIds
    executeApiVpcEndpointId :=
      match v.executeApiVpcEndpointId with
      | some x => some x
      | none => bv.executeApiVpcEndpointId
    s3VpcEndpointId :=
      match v.s3VpcEndpointId with
      | some x => some x
      | none => bv.s3VpcEndpointId
    s3VpcEndpointIps :=
      match v.s3VpcEndpointIps with
      | some x => some x
      | none => bv.s3VpcEndpointIps }

/-- Field-by-field merge of the `cognitoFederation` group; the nested
`customSAML` and `customOIDC` sub-objects are initialised when present in
the manifest and their (required) members always written. -/
def mergeCf (bcf cf : CognitoFederation) : CognitoFederation :=
  { enabled := match cf.enabled with | some x => some x | none => bcf.enabled
    autoRedirect := match cf.autoRedirect with | some x => some x | none => bcf.autoRedirect
    customProviderName :=
      match cf.customProviderName with
      | some x => some x
      | none => bcf.customProviderName
    customProviderType :=
      match cf.customProviderType with
      | some x => some x
      | none => bcf.customProviderType
    cognitoDomain := match cf.cognitoDomain with | some x => some x | none => bcf.cognitoDomain
    customSAML :=
      match cf.customSAML with
      | some s => some ⟨s.metadataDocumentUrl⟩
      | none => bcf.customSAML
    customOIDC :=
      match cf.customOIDC with
      | some c => some ⟨c.OIDCClient, c.OIDCSecret, c.OIDCIssuerURL⟩
      | none => bcf.customOIDC }

/-- Field-by-field merge of `bedrock.guardrails` into the (possibly
freshly initialised) base group; `enabled` is required in the manifest and
always written. -/
def mergeGuardrails (bg : GuardrailsConfig) (g : GuardrailsManifest) :
    GuardrailsConfig :=
  { enabled := g.enabled
    identifier := g.identifier.getD bg.identifier
    version := g.version.getD bg.version }

/-- Field-by-field merge of the `rag` section; the engine `enabled` flags
are required in the manifest and always written when their node is
present, while the model and external-index lists are replaced
wholesale. -/
def mergeRag (br : RagConfig) (r : RagManifest) : RagConfig :=
  { enabled := r.enabled.getD br.enabled
    crossEncodingEnabled := r.crossEncodingEnabled.getD br.crossEncodingEnabled
    engines :=
      match r.engines with
      | none => br.engines
      | some e =>
        { opensearch :=
            match e.opensearch with
            | none => br.engines.opensearch
            | some o => ⟨o.enabled⟩
          knowledgeBase :=
            match e.knowledgeBase with
            | none => br.engines.knowledgeBase
            | some k =>
              { enabled := k.enabled
                external := k.external.getD br.engines.knowledgeBase.external } }
    embeddingsModels := r.embeddingsModels.getD br.embeddingsModels
    crossEncoderModels := r.crossEncoderModels.getD br.crossEncoderModels }

/-- The merged configuration, field-wise.  `prefix` is required in the
manifest, so its guard is always taken; `logArchiveBucketName` is skipped
when the override value is the empty string; the `pipeline` section is
rebuilt wholesale from the manifest (its `requireApproval ?? true`
fallback of the source is vacuous on the validated document, where the zod
default has already been applied). -/
def mergedConfig (base : SystemConfig) (m : DeploymentManifest) : SystemConfig :=
  { prefixStr := m.prefixStr
    enableWaf := m.enableWaf.getD base.enableWaf
    createCMKs := m.createCMKs.getD base.createCMKs
    advancedMonitoring := m.advancedMonitoring.getD base.advancedMonitoring
    disableS3AccessLogs := m.disableS3AccessLogs.getD base.disableS3AccessLogs
    logArchiveBucketName :=
      match m.logArchiveBucketName with
      | some s => if s ≠ "" then some s else base.logArchiveBucketName
      | none => base.logArchiveBucketName
    privateWebsite := m.privateWebsite.getD base.privateWebsite
    certificate := match m.certificate with | some s => some s | none => base.certificate
    domain := match m.domain with | some s => some s | none => base.domain
    vpc :=
      match m.vpc with
      | none => base.vpc
      | some v => some (mergeVpc (base.vpc.getD emptyVpc) v)
    cognitoFederation :=
      match m.cognitoFederation with
      | none => base.cognitoFederation
      | some cf => some (mergeCf (base.cognitoFederation.getD emptyCognitoFederation) cf)
    bedrock :=
      match m.bedrock with
      | none => base.bedrock
      | some mb =>
        match mb.guardrails with
        | none => base.bedrock
        | some g =>
          some ⟨some (mergeGuardrails ((base.bedrock.bind BedrockConfig.guardrails).getD initGuardrails) g)⟩
    rag :=
      match m.rag with
      | none => base.rag
      | some r => mergeRag base.rag r
    pipeline :=
      match m.pipeline with
      | none => base.pipeline
      | some p =>
        some ⟨p.enabled,
              ⟨p.codecommit.existingRepositoryName, p.codecommit.createNew,
               p.codecommit.newRepositoryName, p.codecommit.seedOnCreate⟩,
              p.branch, p.requireApproval, p.notificationEmail⟩ }

/-- Log entries of the `vpc` block; `bv` is the clone value after the
`config.vpc = {}` initialisation. -/
def vpcRecords (bv : VpcConfig) (o : Option VpcConfig) : List ChangeRecord :=
  match o with
  | none => []
  | some v =>
    optRec v.vpcId (fun x => ⟨"vpc.vpcId", ofOptStr bv.vpcId, .vStr x⟩) ++
      optRec v.subnetIds (fun xs => ⟨"vpc.subnetIds", ofOptStrList bv.subnetIds, .vStrList xs⟩) ++
      optRec v.executeApiVpcEndpointId
        (fun x => ⟨"vpc.executeApiVpcEndpointId", ofOptStr bv.executeApiVpcEndpointId, .vStr x⟩) ++
      optRec v.s3VpcEndpointId
        (fun x => ⟨"vpc.s3VpcEndpointId", ofOptStr bv.s3VpcEndpointId, .vStr x⟩) ++
      optRec v.s3VpcEndpointIps
        (fun xs => ⟨"vpc.s3VpcEndpointIps", ofOptStrList bv.s3VpcEndpointIps, .vStrList xs⟩)

/-- Log entries of the `cognitoFederation` block; `bcf` is the clone value
after the `config.cognitoFederation = {}` initialisation. -/
def cfRecords (bcf : CognitoFederation) (o : Option CognitoFederation) :
    List ChangeRecord :=
  match o with
  | none => []
  | some cf =>
    optRec cf.enabled (fun b => ⟨"cognitoFederation.enabled", ofOptBool bcf.enabled, .vBool b⟩) ++
      optRec cf.autoRedirect
        (fun b => ⟨"cognitoFederation.autoRedirect", ofOptBool bcf.autoRedirect, .vBool b⟩) ++
      optRec cf.customProviderName
        (fun s => ⟨"cognitoFederation.customProviderName", ofOptStr bcf.customProviderName, .vStr s⟩) ++
      optRec cf.customProviderType
        (fun t => ⟨"cognitoFederation.customProviderType", ofOptProviderType bcf.customProviderType, .vProviderType t⟩) ++
      optRec cf.cognitoDomain
        (fun s => ⟨"cognitoFederation.cognitoDomain", ofOptStr bcf.cognitoDomain, .vStr s⟩) ++
      (match cf.customSAML with
       | none => []
       | some s =>
         [⟨"cognitoFederation.customSAML.metadataDocumentUrl",
           ofOptStr (bcf.customSAML.map SamlConfig.metadataDocumentUrl),
           .vStr s.metadataDocumentUrl⟩]) ++
      (match cf.customOIDC with
       | none => []
       | some c =>
         [⟨"cognitoFederation.customOIDC.OIDCClient",
           ofOptStr (bcf.customOIDC.map OidcConfig.OIDCClient), .vStr c.OIDCClient⟩,
          ⟨"cognitoFederation.customOIDC.OIDCSecret",
           ofOptStr (bcf.customOIDC.map OidcConfig.OIDCSecret), .vStr c.OIDCSecret⟩,
          ⟨"cognitoFederation.customOIDC.OIDCIssuerURL",
           ofOptStr (bcf.customOIDC.map OidcConfig.OIDCIssuerURL), .vStr c.OIDCIssuerURL⟩])

/-- Log entries of the `bedrock.guardrails` block; old values come from
the clone after the defaults initialisation. -/
def bedrockRecords (bb : Option BedrockConfig) (o : Option BedrockManifest) :
    List ChangeRecord :=
  match o with
  | none => []
  | some mb =>
    match mb.guardrails with
    | none => []
    | some g =>
      let bg := (bb.bind BedrockConfig.guardrails).getD initGuardrails
      [⟨"bedrock.guardrails.enabled", .vBool bg.enabled, .vBool g.enabled⟩] ++
        optRec g.identifier (fun s => ⟨"bedrock.guardrails.identifier", .vStr bg.identifier, .vStr s⟩) ++
        optRec g.version (fun s => ⟨"bedrock.guardrails.version", .vStr bg.version, .vStr s⟩)

/-- Log entries of the `rag` block. -/
def ragRecords (br : RagConfig) (o : Option RagManifest) : List ChangeRecord :=
  match o with
  | none => []
  | some r =>
    optRec r.enabled (fun b => ⟨"rag.enabled", .vBool br.enabled, .vBool b⟩) ++
      optRec r.crossEncodingEnabled
        (fun b => ⟨"rag.crossEncodingEnabled", .vBool br.crossEncodingEnabled, .vBool b⟩) ++
      (match r.engines with
       | none => []
       | some e =>
         (match e.opensearch with
          | none => []
          | some os =>
            [⟨"rag.engines.opensearch.enabled", .vBool br.engines.opensearch.enabled, .vBool os.enabled⟩]) ++
           (match e.knowledgeBase with
            | none => []
            | some k =>
              [⟨"rag.engines.knowledgeBase.enabled", .vBool br.engines.knowledgeBase.enabled, .vBool k.enabled⟩] ++
                optRec k.external
                  (fun xs => ⟨"rag.engines.knowledgeBase.external", .vKbList br.engines.knowledgeBase.external, .vKbList xs⟩))) ++
      optRec r.embeddingsModels
        (fun xs => ⟨"rag.embeddingsModels", .vModelList br.embeddingsModels, .vModelList xs⟩) ++
      optRec r.crossEncoderModels
        (fun xs => ⟨"rag.crossEncoderModels", .vModelList br.crossEncoderModels, .vModelList xs⟩)

/-- Log entry of the `pipeline` block: one record for the whole section. -/
def pipelineRecords (bp : Option PipelineConfig) (o : Option PipelineConfig) :
    List ChangeRecord :=
  match o with
  | none => []
  | some p => [⟨"pipeline", ofOptPipeline bp, .vPipeline p⟩]

/-- Log entries of the `logArchiveBucketName` block: present and
non-empty only (the empty string is the treated-as-absent sentinel). -/
def logArchiveRecords (bla : Option String) (o : Option String) :
    List ChangeRecord :=
  match o with
  | some s =>
    if s ≠ "" then [⟨"logArchiveBucketName", ofOptStr bla, .vStr s⟩] else []
  | none => []

/-- The full override log, in the traversal order of the source. -/
def changeRecords (base : SystemConfig) (m : DeploymentManifest) :
    List ChangeRecord :=
  [⟨"prefix", .vStr base.prefixStr, .vStr m.prefixStr⟩] ++
    optRec m.enableWaf (fun b => ⟨"enableWaf", .vBool base.enableWaf, .vBool b⟩) ++
    optRec m.createCMKs (fun b => ⟨"createCMKs", .vBool base.createCMKs, .vBool b⟩) ++
    optRec m.advancedMonitoring
      (fun b => ⟨"advancedMonitoring", .vBool base.advancedMonitoring, .vBool b⟩) ++
    optRec m.disableS3AccessLogs
      (fun b => ⟨"disableS3AccessLogs", .vBool base.disableS3AccessLogs, .vBool b⟩) ++
    logArchiveRecords base.logArchiveBucketName m.logArchiveBucketName ++
    optRec m.privateWebsite (fun b => ⟨"privateWebsite", .vBool base.privateWebsite, .vBool b⟩) ++
    optRec m.certificate (fun s => ⟨"certificate", ofOptStr base.certificate, .vStr s⟩) ++
    optRec m.domain (fun s => ⟨"domain", ofOptStr base.domain, .vStr s⟩) ++
    vpcRecords (base.vpc.getD emptyVpc) m.vpc ++
    cfRecords (base.cognitoFederation.getD emptyCognitoFederation) m.cognitoFederation ++
    bedrockRecords base.bedrock m.bedrock ++
    ragRecords base.rag m.rag ++
    pipelineRecords base.pipeline m.pipeline

/-- `applyManifestOverrides`: merged configuration plus override log. -/
def applyManifestOverrides (baseConfig : SystemConfig)
    (manifest : DeploymentManifest) : SystemConfig × List ChangeRecord :=
  (mergedConfig baseConfig manifest, changeRecords baseConfig manifest)

/-! ### Manifest locator and resolution orchestrator

The filesystem is abstracted by an existence predicate, an environment
lookup and a read-and-parse function returning an already structured raw
document (YAML parse failures are outside this model). -/

/-- `findManifestFile`: the candidate list (the environment entry dropped
by `.filter(Boolean)` when unset or empty) probed in priority order. -/
def findManifestFile (envManifest : Option String)
    (fileExists : String → Bool) : Option String :=
  let searchPaths :=
    (match envManifest with
     | some p => if p ≠ "" then [p] else []
     | none => []) ++
      ["deployment-manifest.yaml", "deployment-manifest.yml"]
  searchPaths.find? fileExists

/-- `loadDeploymentManifest`: `none` when no candidate exists, otherwise
the validated document or the aggregated error list. -/
def loadDeploymentManifest (envManifest : Option String)
    (fileExists : String → Bool)
    (readManifest : String → DeploymentManifestRaw) :
    Except (List FieldError) (Option DeploymentManifest) :=
  match findManifestFile envManifest fileExists with
  | none => .ok none
  | some path =>
    match validateManifest (readManifest path) with
    | .ok d => .ok (some d)
    | .error es => .error es

/-- `loadConfig`: base configuration unchanged (and an empty log) when no
manifest is found, otherwise the merged configuration and its log. -/
def loadConfig (envManifest : Option String) (fileExists : String → Bool)
    (readManifest : String → DeploymentManifestRaw)
    (baseConfig : SystemConfig) :
    Except (List FieldError) (SystemConfig × List ChangeRecord) :=
  match loadDeploymentManifest envManifest fileExists readManifest with
  | .error es => .error es
  | .ok none => .ok (baseConfig, [])
  | .ok (some manifest) => .ok (applyManifestOverrides baseConfig manifest)

/-! ### Field paths

An enumeration of every field path of the override document, with the
presence of a path in a manifest and the value of a path in a
configuration, used to state the presence-vs-absence (frame) property. -/

/-- All field paths of the override document tree, groups included. -/
inductive FieldPath where
  | pPrefix | pEnableWaf | pCreateCMKs | pAdvancedMonitoring
  | pDisableS3AccessLogs | pLogArchiveBucketName | pPrivateWebsite
  | pCertificate | pDomain
  | pVpc | pVpcVpcId | pVpcSubnetIds | pVpcExecuteApiVpcEndpointId
  | pVpcS3VpcEndpointId | pVpcS3VpcEndpointIps
  | pCf | pCfEnabled | pCfAutoRedirect | pCfCustomProviderName
  | pCfCustomProviderType | pCfCognitoDomain | pCfCustomSAML
  | pCfSamlMetadataDocumentUrl | pCfCustomOIDC | pCfOidcClient
  | pCfOidcSecret | pCfOidcIssuerURL
  | pBedrock | pBedrockGuardrails | pGuardrailsEnabled
  | pGuardrailsIdentifier | pGuardrailsVersion
  | pRag | pRagEnabled | pRagCrossEncodingEnabled | pRagEngines
  | pRagOpensearch | pRagOpensearchEnabled | pRagKnowledgeBase
  | pRagKnowledgeBaseEnabled | pRagKnowledgeBaseExternal
  | pRagEmbeddingsModels | pRagCrossEncoderModels
  | pPipeline | pPipelineEnabled | pPipelineCodecommit
  | pPipelineExistingRepositoryName | pPipelineCreateNew
  | pPipelineNewRepositoryName | pPipelineSeedOnCreate | pPipelineBranch
  | pPipelineRequireApproval | pPipelineNotificationEmail
deriving DecidableEq, Repr

/-- A document value, as observed at one field path of a configuration
(`undefined` for an absent optional field or group). -/
inductive CVal where
  | undefined
  | str (s : String)
  | bool (b : Bool)
  | ptype (t : ProviderType)
  | strList (xs : List String)
  | modelList (xs : List ModelConfig)
  | kbList (xs : List ExternalKnowledgeBase)
  | vpcG (v : VpcConfig)
  | cfG (cf : CognitoFederation)
  | samlG (s : SamlConfig)
  | oidcG (c : OidcConfig)
  | bedrockG (b : BedrockConfig)
  | guardrailsG (g : GuardrailsConfig)
  | ragG (r : RagConfig)
  | enginesG (e : RagEnginesConfig)
  | osG (o : OpenSearchEngine)
  | kbEngineG (k : KnowledgeBaseEngineConfig)
  | pipelineG (p : PipelineConfig)
  | codecommitG (c : PipelineCodeCommit)
deriving DecidableEq, Repr

/-- Observed value of an optional string. -/
def cOptStr (o : Option String) : CVal :=
  match o with
  | some s => .str s
  | none => .undefined

/-- Observed value of an optional boolean. -/
def cOptBool (o : Option Bool) : CVal :=
  match o with
  | some b => .bool b
  | none => .undefined

/-- Observed value of an optional provider type. -/
def cOptPtype (o : Option ProviderType) : CVal :=
  match o with
  | some t => .ptype t
  | none => .undefined

/-- Observed value of an optional string list. -/
def cOptStrList (o : Option (List String)) : CVal :=
  match o with
  | some xs => .strList xs
  | none => .undefined

/-- A validated override document mentions the given path (a required
member of a group is present exactly when the group is). -/
def manifestHas (m : DeploymentManifest) : FieldPath → Bool
  | .pPrefix => true
  | .pEnableWaf => m.enableWaf.isSome
  | .pCreateCMKs => m.createCMKs.isSome
  | .pAdvancedMonitoring => m.advancedMonitoring.isSome
  | .pDisableS3AccessLogs => m.disableS3AccessLogs.isSome
  | .pLogArchiveBucketName => m.logArchiveBucketName.isSome
  | .pPrivateWebsite => m.privateWebsite.isSome
  | .pCertificate => m.certificate.isSome
  | .pDomain => m.domain.isSome
  | .pVpc => m.vpc.isSome
  | .pVpcVpcId => (m.vpc.bind VpcConfig.vpcId).isSome
  | .pVpcSubnetIds => (m.vpc.bind VpcConfig.subnetIds).isSome
  | .pVpcExecuteApiVpcEndpointId => (m.vpc.bind VpcConfig.executeApiVpcEndpointId).isSome
  | .pVpcS3VpcEndpointId => (m.vpc.bind VpcConfig.s3VpcEndpointId).isSome
  | .pVpcS3VpcEndpointIps => (m.vpc.bind VpcConfig.s3VpcEndpointIps).isSome
  | .pCf => m.cognitoFederation.isSome
  | .pCfEnabled => (m.cognitoFederation.bind CognitoFederation.enabled).isSome
  | .pCfAutoRedirect => (m.cognitoFederation.bind CognitoFederation.autoRedirect).isSome
  | .pCfCustomProviderName => (m.cognitoFederation.bind CognitoFederation.customProviderName).isSome
  | .pCfCustomProviderType => (m.cognitoFederation.bind CognitoFederation.customProviderType).isSome
  | .pCfCognitoDomain => (m.cognitoFederation.bind CognitoFederation.cognitoDomain).isSome
  | .pCfCustomSAML => (m.cognitoFederation.bind CognitoFederation.customSAML).isSome
  | .pCfSamlMetadataDocumentUrl => (m.cognitoFederation.bind CognitoFederation.customSAML).isSome
  | .pCfCustomOIDC => (m.cognitoFederation.bind CognitoFederation.customOIDC).isSome
  | .pCfOidcClient => (m.cognitoFederation.bind CognitoFederation.customOIDC).isSome
  | .pCfOidcSecret => (m.cognitoFederation.bind CognitoFederation.customOIDC).isSome
  | .pCfOidcIssuerURL => (m.cognitoFederation.bind CognitoFederation.customOIDC).isSome
  | .pBedrock => m.bedrock.isSome
  | .pBedrockGuardrails => (m.bedrock.bind BedrockManifest.guardrails).isSome
  | .pGuardrailsEnabled => (m.bedrock.bind BedrockManifest.guardrails).isSome
  | .pGuardrailsIdentifier =>
    ((m.bedrock.bind BedrockManifest.guardrails).bind GuardrailsManifest.identifier).isSome
  | .pGuardrailsVersion =>
    ((m.bedrock.bind BedrockManifest.guardrails).bind GuardrailsManifest.version).isSome
  | .pRag => m.rag.isSome
  | .pRagEnabled => (m.rag.bind RagManifest.enabled).isSome
  | .pRagCrossEncodingEnabled => (m.rag.bind RagManifest.crossEncodingEnabled).isSome
  | .pRagEngines => (m.rag.bind RagManifest.engines).isSome
  | .pRagOpensearch =>
    ((m.rag.bind RagManifest.engines).bind RagEnginesManifest.opensearch).isSome
  | .pRagOpensearchEnabled =>
    ((m.rag.bind RagManifest.engines).bind RagEnginesManifest.opensearch).isSome
  | .pRagKnowledgeBase =>
    ((m.rag.bind RagManifest.engines).bind RagEnginesManifest.knowledgeBase).isSome
  | .pRagKnowledgeBaseEnabled =>
    ((m.rag.bind RagManifest.engines).bind RagEnginesManifest.knowledgeBase).isSome
  | .pRagKnowledgeBaseExternal =>
    (((m.rag.bind RagManifest.engines).bind RagEnginesManifest.knowledgeBase).bind
      KnowledgeBaseEngineManifest.external).isSome
  | .pRagEmbeddingsModels => (m.rag.bind RagManifest.embeddingsModels).isSome
  | .pRagCrossEncoderModels => (m.rag.bind RagManifest.crossEncoderModels).isSome
  | .pPipeline => m.pipeline.isSome
  | .pPipelineEnabled => m.pipeline.isSome
  | .pPipelineCodecommit => m.pipeline.isSome
  | .pPipelineExistingRepositoryName =>
    (m.pipeline.bind (fun p => p.codecommit.existingRepositoryName)).isSome
  | .pPipelineCreateNew => (m.pipeline.bind (fun p => p.codecommit.createNew)).isSome
  | .pPipelineNewRepositoryName =>
    (m.pipeline.bind (fun p => p.codecommit.newRepositoryName)).isSome
  | .pPipelineSeedOnCreate => m.pipeline.isSome
  | .pPipelineBranch => m.pipeline.isSome
  | .pPipelineRequireApproval => m.pipeline.isSome
  | .pPipelineNotificationEmail =>
    (m.pipeline.bind PipelineConfig.notificationEmail).isSome

/-- The value a configuration holds at the given path (`undefined` when an
enclosing optional group is absent). -/
def configAt (c : SystemConfig) : FieldPath → CVal
  | .pPrefix => .str c.prefixStr
  | .pEnableWaf => .bool c.enableWaf
  | .pCreateCMKs => .bool c.createCMKs
  | .pAdvancedMonitoring => .bool c.advancedMonitoring
  | .pDisableS3AccessLogs => .bool c.disableS3AccessLogs
  | .pLogArchiveBucketName => cOptStr c.logArchiveBucketName
  | .pPrivateWebsite => .bool c.privateWebsite
  | .pCertificate => cOptStr c.certificate
  | .pDomain => cOptStr c.domain
  | .pVpc => match c.vpc with | some v => .vpcG v | none => .undefined
  | .pVpcVpcId => cOptStr (c.vpc.bind VpcConfig.vpcId)
  | .pVpcSubnetIds => cOptStrList (c.vpc.bind VpcConfig.subnetIds)
  | .pVpcExecuteApiVpcEndpointId => cOptStr (c.vpc.bind VpcConfig.executeApiVpcEndpointId)
  | .pVpcS3VpcEndpointId => cOptStr (c.vpc.bind VpcConfig.s3VpcEndpointId)
  | .pVpcS3VpcEndpointIps => cOptStrList (c.vpc.bind VpcConfig.s3VpcEndpointIps)
  | .pCf => match c.cognitoFederation with | some cf => .cfG cf | none => .undefined
  | .pCfEnabled => cOptBool (c.cognitoFederation.bind CognitoFederation.enabled)
  | .pCfAutoRedirect => cOptBool (c.cognitoFederation.bind CognitoFederation.autoRedirect)
  | .pCfCustomProviderName => cOptStr (c.cognitoFederation.bind CognitoFederation.customProviderName)
  | .pCfCustomProviderType => cOptPtype (c.cognitoFederation.bind CognitoFederation.customProviderType)
  | .pCfCognitoDomain => cOptStr (c.cognitoFederation.bind CognitoFederation.cognitoDomain)
  | .pCfCustomSAML =>
    match c.cognitoFederation.bind CognitoFederation.customSAML with
    | some s => .samlG s
    | none => .undefined
  | .pCfSamlMetadataDocumentUrl =>
    cOptStr ((c.cognitoFederation.bind CognitoFederation.customSAML).map SamlConfig.metadataDocumentUrl)
  | .pCfCustomOIDC =>
    match c.cognitoFederation.bind CognitoFederation.customOIDC with
    | some oc => .oidcG oc
    | none => .undefined
  | .pCfOidcClient =>
    cOptStr ((c.cognitoFederation.bind CognitoFederation.customOIDC).map OidcConfig.OIDCClient)
  | .pCfOidcSecret =>
    cOptStr ((c.cognitoFederation.bind CognitoFederation.customOIDC).map OidcConfig.OIDCSecret)
  | .pCfOidcIssuerURL =>
    cOptStr ((c.cognitoFederation.bind CognitoFederation.customOIDC).map OidcConfig.OIDCIssuerURL)
  | .pBedrock => match c.bedrock with | some b => .bedrockG b | none => .undefined
  | .pBedrockGuardrails =>
    match c.bedrock.bind BedrockConfig.guardrails with
    | some g => .guardrailsG g
    | none => .undefined
  | .pGuardrailsEnabled =>
    cOptBool ((c.bedrock.bind BedrockConfig.guardrails).map GuardrailsConfig.enabled)
  | .pGuardrailsIdentifier =>
    cOptStr ((c.bedrock.bind BedrockConfig.guardrails).map GuardrailsConfig.identifier)
  | .pGuardrailsVersion =>
    cOptStr ((c.bedrock.bind BedrockConfig.guardrails).map GuardrailsConfig.version)
  | .pRag => .ragG c.rag
  | .pRagEnabled => .bool c.rag.enabled
  | .pRagCrossEncodingEnabled => .bool c.rag.crossEncodingEnabled
  | .pRagEngines => .enginesG c.rag.engines
  | .pRagOpensearch => .osG c.rag.engines.opensearch
  | .pRagOpensearchEnabled => .bool c.rag.engines.opensearch.enabled
  | .pRagKnowledgeBase => .kbEngineG c.rag.engines.knowledgeBase
  | .pRagKnowledgeBaseEnabled => .bool c.rag.engines.knowledgeBase.enabled
  | .pRagKnowledgeBaseExternal => .kbList c.rag.engines.knowledgeBase.external
  | .pRagEmbeddingsModels => .modelList c.rag.embeddingsModels
  | .pRagCrossEncoderModels => .modelList c.rag.crossEncoderModels
  | .pPipeline => match c.pipeline with | some p => .pipelineG p | none => .undefined
  | .pPipelineEnabled => cOptBool (c.pipeline.map PipelineConfig.enabled)
  | .pPipelineCodecommit =>
    match c.pipeline.map PipelineConfig.codecommit with
    | some cc => .codecommitG cc
    | none => .undefined
  | .pPipelineExistingRepositoryName =>
    cOptStr (c.pipeline.bind (fun p => p.codecommit.existingRepositoryName))
  | .pPipelineCreateNew => cOptBool (c.pipeline.bind (fun p => p.codecommit.createNew))
  | .pPipelineNewRepositoryName =>
    cOptStr (c.pipeline.bind (fun p => p.codecommit.newRepositoryName))
  | .pPipelineSeedOnCreate => cOptBool (c.pipeline.map (fun p => p.codecommit.seedOnCreate))
  | .pPipelineBranch => cOptStr (c.pipeline.map PipelineConfig.branch)
  | .pPipelineRequireApproval => cOptBool (c.pipeline.map PipelineConfig.requireApproval)
  | .pPipelineNotificationEmail => cOptStr (c.pipeline.bind PipelineConfig.notificationEmail)

/-- Paths strictly inside the atomically-replaced `pipeline` group. -/
def isPipelineSubPath : FieldPath → Bool
  | .pPipelineEnabled | .pPipelineCodecommit | .pPipelineExistingRepositoryName
  | .pPipelineCreateNew | .pPipelineNewRepositoryName | .pPipelineSeedOnCreate
  | .pPipelineBranch | .pPipelineRequireApproval
  | .pPipelineNotificationEmail => true
  | _ => false

/-- Paths materialised by the `{ enabled: false, identifier: "",
version: "" }` guardrails initialisation. -/
def isGuardrailsInitPath : FieldPath → Bool
  | .pGuardrailsIdentifier | .pGuardrailsVersion => true
  | _ => false

/-! ### Expected override-log counts

The number of log entries the merge emits for a given path, as a function
of the manifest alone (old values never influence whether a line is
logged). -/

/-- Indicator count. -/
def cnt (b : Bool) : Nat :=
  if b then 1 else 0

/-- The number of change records with the given path that the merge emits
for a manifest. -/
def expectedCount (m : DeploymentManifest) (tgt : String) : Nat :=
  (if tgt = "prefix" then 1 else 0) +
    (if tgt = "enableWaf" then cnt m.enableWaf.isSome else 0) +
    (if tgt = "createCMKs" then cnt m.createCMKs.isSome else 0) +
    (if tgt = "advancedMonitoring" then cnt m.advancedMonitoring.isSome else 0) +
    (if tgt = "disableS3AccessLogs" then cnt m.disableS3AccessLogs.isSome else 0) +
    (if tgt = "logArchiveBucketName" then cnt (truthyStr m.logArchiveBucketName) else 0) +
    (if tgt = "privateWebsite" then cnt m.privateWebsite.isSome else 0) +
    (if tgt = "certificate" then cnt m.certificate.isSome else 0) +
    (if tgt = "domain" then cnt m.domain.isSome else 0) +
    (if tgt = "vpc.vpcId" then cnt (m.vpc.bind VpcConfig.vpcId).isSome else 0) +
    (if tgt = "vpc.subnetIds" then cnt (m.vpc.bind VpcConfig.subnetIds).isSome else 0) +
    (if tgt = "vpc.executeApiVpcEndpointId" then
      cnt (m.vpc.bind VpcConfig.executeApiVpcEndpointId).isSome else 0) +
    (if tgt = "vpc.s3VpcEndpointId" then
      cnt (m.vpc.bind VpcConfig.s3VpcEndpointId).isSome else 0) +
    (if tgt = "vpc.s3VpcEndpointIps" then
      cnt (m.vpc.bind VpcConfig.s3VpcEndpointIps).isSome else 0) +
    (if tgt = "cognitoFederation.enabled" then
      cnt (m.cognitoFederation.bind CognitoFederation.enabled).isSome else 0) +
    (if tgt = "cognitoFederation.autoRedirect" then
      cnt (m.cognitoFederation.bind CognitoFederation.autoRedirect).isSome else 0) +
    (if tgt = "cognitoFederation.customProviderName" then
      cnt (m.cognitoFederation.bind CognitoFederation.customProviderName).isSome else 0) +
    (if tgt = "cognitoFederation.customProviderType" then
      cnt (m.cognitoFederation.bind CognitoFederation.customProviderType).isSome else 0) +
    (if tgt = "cognitoFederation.cognitoDomain" then
      cnt (m.cognitoFederation.bind CognitoFederation.cognitoDomain).isSome else 0) +
    (if tgt = "cognitoFederation.customSAML.metadataDocumentUrl" then
      cnt (m.cognitoFederation.bind CognitoFederation.customSAML).isSome else 0) +
    (if tgt = "cognitoFederation.customOIDC.OIDCClient" then
      cnt (m.cognitoFederation.bind CognitoFederation.customOIDC).isSome else 0) +
    (if tgt = "cognitoFederation.customOIDC.OIDCSecret" then
      cnt (m.cognitoFederation.bind CognitoFederation.customOIDC).isSome else 0) +
    (if tgt = "cognitoFederation.customOIDC.OIDCIssuerURL" then
      cnt (m.cognitoFederation.bind CognitoFederation.customOIDC).isSome else 0) +
    (if tgt = "bedrock.guardrails.enabled" then
      cnt (m.bedrock.bind BedrockManifest.guardrails).isSome else 0) +
    (if tgt = "bedrock.guardrails.identifier" then
      cnt ((m.bedrock.bind BedrockManifest.guardrails).bind GuardrailsManifest.identifier).isSome else 0) +
    (if tgt = "bedrock.guardrails.version" then
      cnt ((m.bedrock.bind BedrockManifest.guardrails).bind GuardrailsManifest.version).isSome else 0) +
    (if tgt = "rag.enabled" then cnt (m.rag.bind RagManifest.enabled).isSome else 0) +
    (if tgt = "rag.crossEncodingEnabled" then
      cnt (m.rag.bind RagManifest.crossEncodingEnabled).isSome else 0) +
    (if tgt = "rag.engines.opensearch.enabled" then
      cnt ((m.rag.bind RagManifest.engines).bind RagEnginesManifest.opensearch).isSome else 0) +
    (if tgt = "rag.engines.knowledgeBase.enabled" then
      cnt ((m.rag.bind RagManifest.engines).bind RagEnginesManifest.knowledgeBase).isSome else 0) +
    (if tgt = "rag.engines.knowledgeBase.external" then
      cnt (((m.rag.bind RagManifest.engines).bind RagEnginesManifest.knowledgeBase).bind
        KnowledgeBaseEngineManifest.external).isSome else 0) +
    (if tgt = "rag.embeddingsModels" then
      cnt (m.rag.bind RagManifest.embeddingsModels).isSome else 0) +
    (if tgt = "rag.crossEncoderModels" then
      cnt (m.rag.bind RagManifest.crossEncoderModels).isSome else 0) +
    (if tgt = "pipeline" then cnt m.pipeline.isSome else 0)

/-! ### Concrete sample documents

Closed configurations and manifests used to instantiate the theorems
below on explicit inputs. -/

/-- A fully populated base configuration. -/
def baseSample : SystemConfig :=
  { prefixStr := "base-app"
    enableWaf := false
    createCMKs := true
    advancedMonitoring := false
    disableS3AccessLogs := false
    logArchiveBucketName := some "base-logs"
    privateWebsite := false
    certificate := some "arn-base-cert"
    domain := none
    vpc := some ⟨some "vpc-base", some ["subnet-base1", "subnet-base2"], none, some "vpce-base", none⟩
    cognitoFederation :=
      some ⟨some false, none, some "BaseSSO", some ProviderType.saml, none,
        some ⟨"https://base.example.com/md.xml"⟩, none⟩
    bedrock := none
    rag :=
      { enabled := false
        crossEncodingEnabled := false
        engines := ⟨⟨false⟩, ⟨false, []⟩⟩
        embeddingsModels :=
          [⟨ModelProvider.bedrock, "model-a", some 1536, some true⟩,
           ⟨ModelProvider.bedrock, "model-b", none, none⟩,
           ⟨ModelProvider.sagemaker, "model-c", some 768, none⟩]
        crossEncoderModels := [] }
    pipeline := some ⟨false, ⟨some "base-repo", none, none, false⟩, "main", true, some "ops@example.com"⟩ }

/-- A sample validated external knowledge-base entry. -/
def kbSample : ExternalKnowledgeBase :=
  ⟨"my-kb", "ABCD123456", none, none, true⟩

/-- A sample override document touching most groups, used to instantiate
theorems that carry no validity hypothesis. -/
def manifestSample : DeploymentManifest :=
  { prefixStr := "prod-cb"
    enableWaf := some true
    createCMKs := none
    advancedMonitoring := none
    disableS3AccessLogs := none
    logArchiveBucketName := none
    privateWebsite := none
    certificate := some ""
    domain := none
    vpc := some ⟨some "vpc-0123456789abcdef0", none, none, none, none⟩
    cognitoFederation := some ⟨some true, none, none, none, some "my-domain", none, none⟩
    bedrock := some ⟨some ⟨true, some "abc123", none⟩⟩
    rag :=
      some ⟨some true, none, some ⟨some ⟨true⟩, some ⟨true, some [kbSample]⟩⟩,
        some [⟨ModelProvider.bedrock, "embed-model", some 1536, some true⟩], none⟩
    pipeline := none }

/-- `manifestSample` with an explicitly empty `logArchiveBucketName`. -/
def manifestEmptyLaSample : DeploymentManifest :=
  { manifestSample with logArchiveBucketName := some "" }

/-- A minimal valid raw manifest. -/
def rawOkSample : DeploymentManifestRaw :=
  { prefixStr := "prod-cb"
    enableWaf := none
    createCMKs := none
    advancedMonitoring := none
    disableS3AccessLogs := none
    logArchiveBucketName := none
    privateWebsite := none
    certificate := none
    domain := none
    vpc := none
    cognitoFederation := none
    bedrock := none
    rag := none
    pipeline := none }

/-- A raw manifest violating two independent constraints: the prefix
length bound and the endpoint companion-pair refinement. -/
def rawBadSample : DeploymentManifestRaw :=
  { rawOkSample with
      prefixStr := "this-is-way-too-long"
      vpc := some ⟨none, none, none, none, some ["10.0.1.5"]⟩ }

/-- A raw manifest whose vpc group carries endpoint IPs but no endpoint
id. -/
def rawVpcIpsSample : DeploymentManifestRaw :=
  { rawOkSample with
      prefixStr := "test-app"
      vpc := some ⟨none, none, none, none, some ["10.0.1.5"]⟩ }

/-- A raw manifest whose pipeline section names an existing repository
and asks for a new one at the same time. -/
def rawPipelineBothSample : DeploymentManifestRaw :=
  { rawOkSample with
      prefixStr := "test-app"
      pipeline := some ⟨true, ⟨some "my-repo", some true, some "new-repo", none⟩, none, none, none⟩ }

/-- A raw manifest whose pipeline section supplies neither an existing
repository nor a new one. -/
def rawPipelineNeitherSample : DeploymentManifestRaw :=
  { rawOkSample with
      prefixStr := "test-app"
      pipeline := some ⟨true, ⟨none, none, none, none⟩, none, none, none⟩ }

/-- A schema-valid raw manifest whose only section is a pipeline that
requests a new repository and omits `notificationEmail`. -/
def rawPipelineOkSample : DeploymentManifestRaw :=
  { rawOkSample with
      pipeline := some ⟨true, ⟨none, some true, some "new-repo", none⟩, none, none, none⟩ }

/-- The validated document `validateManifest` produces from
`rawPipelineOkSample`. -/
def manifestPipelineOkSample : DeploymentManifest :=
  applyDefaults rawPipelineOkSample

/-- A schema-valid raw manifest whose only section is a guardrails node
`{ enabled: false }` omitting `identifier` and `version` (the guardrails
refinement only fires when `enabled` is true). -/
def rawGuardrailsOkSample : DeploymentManifestRaw :=
  { rawOkSample with bedrock := some ⟨some ⟨false, none, none⟩⟩ }

/-- The validated document `validateManifest` produces from
`rawGuardrailsOkSample`. -/
def manifestGuardrailsOkSample : DeploymentManifest :=
  applyDefaults rawGuardrailsOkSample

/-- A schema-valid raw manifest whose only field beyond the prefix is an
explicitly empty `logArchiveBucketName` (the union literal accepts the
empty string). -/
def rawEmptyLaOkSample : DeploymentManifestRaw :=
  { rawOkSample with logArchiveBucketName := some "" }

/-- The validated document `validateManifest` produces from
`rawEmptyLaOkSample`. -/
def manifestEmptyLaOkSample : DeploymentManifest :=
  applyDefaults rawEmptyLaOkSample

/-! ### Helper lemmas -/

theorem optErr_length (o : Option String) (ok : String → Bool) (path msg : String) :
    (optErr o ok path msg).length = cnt (optViol o ok) := by
  by_cases h : optViol o ok <;> simp [optErr, cnt, h]

theorem orEmptyErr_length (o : Option String) (ok : String → Bool) (path msg : String) :
    (orEmptyErr o ok path msg).length = cnt (orEmptyViol o ok) := by
  by_cases h : orEmptyViol o ok <;> simp [orEmptyErr, cnt, h]

theorem length_ite_single (c : Prop) [Decidable c] (e : FieldError) :
    (if c then [e] else []).length = cnt (decide c) := by
  by_cases h : c <;> simp [cnt, h]

theorem filter_length_cons (p : α → Bool) (a : α) (l : List α) :
    ((a :: l).filter p).length = cnt (p a) + (l.filter p).length := by
  by_cases h : p a <;> simp [cnt, h, Nat.add_comm]

theorem elemErrorsAux_length (pathBase msg : String) (ok : String → Bool)
    (xs : List String) : ∀ i,
    (elemErrorsAux pathBase msg ok i xs).length = xs.countP (fun x => !ok x) := by
  induction xs with
  | nil => intro i; simp [elemErrorsAux]
  | cons x xs ih =>
    intro i
    by_cases h : ok x <;>
      simp [elemErrorsAux, List.countP_cons, h, ih, Nat.add_comm]

theorem cnt_any_le_countP (l : List α) (p : α → Bool) :
    cnt (l.any p) ≤ l.countP p := by
  by_cases h : l.any p
  · have hpos : 0 < l.countP p := by
      rw [List.countP_pos_iff]
      simpa [List.any_eq_true] using h
    simpa [cnt, h] using hpos
  · simp [cnt, h]

theorem kbEntryErrors_pos (pb : String) (e : ExternalKnowledgeBaseRaw)
    (h : kbEntryViolated e = true) : 1 ≤ (kbEntryErrors pb e).length := by
  by_cases h1 : e.name.length < 1 <;>
    by_cases h2 : nameFormatOk e.name <;>
    by_cases h3 : e.knowledgeBaseId.length = 10 <;>
    by_cases h4 : kbIdCharsOk e.knowledgeBaseId <;>
    by_cases h5 : optViol e.roleArn iamRoleArnOk <;>
    simp_all [kbEntryErrors, kbEntryViolated, optErr]

theorem kbListErrorsAux_pos (pb : String) (xs : List ExternalKnowledgeBaseRaw)
    (h : xs.any kbEntryViolated = true) : ∀ i,
    1 ≤ (kbListErrorsAux pb i xs).length := by
  induction xs with
  | nil => simp at h
  | cons e es ih =>
    intro i
    simp only [List.any_cons, Bool.or_eq_true] at h
    rcases h with h | h
    · have := kbEntryErrors_pos (pb ++ "." ++ toString i) e h
      simp only [kbListErrorsAux, List.length_append]
      omega
    · have := ih h (i + 1)
      simp only [kbListErrorsAux, List.length_append]
      omega

theorem modelEntryErrors_pos (pb : String) (mc : ModelConfig)
    (h : modelEntryViolated mc = true) : 1 ≤ (modelEntryErrors pb mc).length := by
  by_cases h1 : mc.name.length < 1
  · simp [modelEntryErrors, h1]
  · cases hd : mc.dimensions with
    | none => simp_all [modelEntryViolated, presentAnd]
    | some d =>
      have hd0 : d ≤ 0 := by simp_all [modelEntryViolated, presentAnd]
      simp [modelEntryErrors, h1, hd, Int.not_lt.mpr hd0]

theorem modelListErrorsAux_pos (pb : String) (xs : List ModelConfig)
    (h : xs.any modelEntryViolated = true) : ∀ i,
    1 ≤ (modelListErrorsAux pb i xs).length := by
  induction xs with
  | nil => simp at h
  | cons mc mcs ih =>
    intro i
    simp only [List.any_cons, Bool.or_eq_true] at h
    rcases h with h | h
    · have := modelEntryErrors_pos (pb ++ "." ++ toString i) mc h
      simp only [modelListErrorsAux, List.length_append]
      omega
    · have := ih h (i + 1)
      simp only [modelListErrorsAux, List.length_append]
      omega

theorem cnt_true : cnt true = 1 := rfl

theorem cnt_false : cnt false = 0 := rfl

theorem cnt_decide_bool (b : Bool) : cnt (decide (b = true)) = cnt b := by
  cases b <;> simp [cnt]

theorem length_ite_bool_single (b : Bool) (e : FieldError) :
    (if b then [e] else []).length = cnt b := by
  cases b <;> simp [cnt]

theorem length_ite_bool_nil (b : Bool) (e : FieldError) :
    (if b then [] else [e]).length = cnt (!b) := by
  cases b <;> simp [cnt]

theorem cnt_any_le_kbList (pb : String) (xs : List ExternalKnowledgeBaseRaw)
    (i : Nat) : cnt (xs.any kbEntryViolated) ≤ (kbListErrorsAux pb i xs).length := by
  by_cases h : xs.any kbEntryViolated
  · simpa [cnt, h] using kbListErrorsAux_pos pb xs h i
  · simp [cnt, h]

theorem cnt_any_le_modelList (pb : String) (xs : List ModelConfig) (i : Nat) :
    cnt (xs.any modelEntryViolated) ≤ (modelListErrorsAux pb i xs).length := by
  by_cases h : xs.any modelEntryViolated
  · simpa [cnt, h] using modelListErrorsAux_pos pb xs h i
  · simp [cnt, h]

theorem presentAnd_none (p : α → Bool) : presentAnd none p = false := rfl

theorem presentAnd_some (x : α) (p : α → Bool) : presentAnd (some x) p = p x := rfl

theorem prefixGroup_le (m : DeploymentManifestRaw) :
    (prefixConstraints.filter (fun c => c.violated m)).length ≤
      (prefixErrors m.prefixStr).length := by
  simp only [prefixConstraints, filter_length_cons, List.filter_nil, List.length_nil,
    prefixErrors, List.length_append, length_ite_single, length_ite_bool_nil]
  omega

theorem logArchiveGroup_le (m : DeploymentManifestRaw) :
    (logArchiveConstraints.filter (fun c => c.violated m)).length ≤
      (logArchiveErrors m.logArchiveBucketName).length := by
  cases ho : m.logArchiveBucketName with
  | none => simp [logArchiveConstraints, presentAnd, ho, logArchiveErrors]
  | some s =>
    by_cases he : s = ""
    · simp [logArchiveConstraints, presentAnd, ho, he, logArchiveErrors]
    · have hb : (s != "") = true := by simp [he]
      simp only [logArchiveConstraints, filter_length_cons, List.filter_nil,
        List.length_nil, presentAnd_none, presentAnd_some, ho, logArchiveErrors, if_neg he,
        List.length_append, length_ite_single, length_ite_bool_nil, hb,
        Bool.true_and]
      omega

theorem websiteGroup_le (m : DeploymentManifestRaw) :
    (websiteConstraints.filter (fun c => c.violated m)).length ≤
      (orEmptyErr m.certificate acmArnOk "certificate" "Invalid ACM certificate ARN format").length +
        (orEmptyErr m.domain domainOk "domain" "Invalid domain format. Example: chat.example.com").length := by
  simp only [websiteConstraints, filter_length_cons, List.filter_nil, List.length_nil,
    orEmptyErr_length]
  omega

theorem vpcGroup_le (m : DeploymentManifestRaw) :
    (vpcConstraints.filter (fun c => c.violated m)).length ≤
      (match m.vpc with | none => [] | some v => vpcErrors v).length := by
  cases hv : m.vpc with
  | none => simp [vpcConstraints, presentAnd, hv]
  | some v =>
    cases hs : v.subnetIds with
    | none =>
      cases hi : v.s3VpcEndpointIps with
      | none =>
        simp only [vpcConstraints, filter_length_cons, List.filter_nil,
          List.length_nil, presentAnd_none, presentAnd_some, hv, hs, hi, vpcErrors, List.length_append,
          optErr_length, length_ite_single, length_ite_bool_single, cnt_decide_bool, cnt_false]
        omega
      | some ips =>
        have h1 := cnt_any_le_countP ips (fun x => !ipOk x)
        simp only [vpcConstraints, filter_length_cons, List.filter_nil,
          List.length_nil, presentAnd_none, presentAnd_some, hv, hs, hi, vpcErrors, List.length_append,
          optErr_length, length_ite_single, length_ite_bool_single, cnt_decide_bool, cnt_false,
          elemErrorsAux_length]
        omega
    | some xs =>
      cases hi : v.s3VpcEndpointIps with
      | none =>
        have h1 := cnt_any_le_countP xs (fun x => !subnetIdOk x)
        simp only [vpcConstraints, filter_length_cons, List.filter_nil,
          List.length_nil, presentAnd_none, presentAnd_some, hv, hs, hi, vpcErrors, List.length_append,
          optErr_length, length_ite_single, length_ite_bool_single, cnt_decide_bool, cnt_false,
          elemErrorsAux_length]
        omega
      | some ips =>
        have h1 := cnt_any_le_countP xs (fun x => !subnetIdOk x)
        have h2 := cnt_any_le_countP ips (fun x => !ipOk x)
        simp only [vpcConstraints, filter_length_cons, List.filter_nil,
          List.length_nil, presentAnd_none, presentAnd_some, hv, hs, hi, vpcErrors, List.length_append,
          optErr_length, length_ite_single, length_ite_bool_single, cnt_decide_bool, cnt_false,
          elemErrorsAux_length]
        omega

theorem cfGroup_le (m : DeploymentManifestRaw) :
    (cfConstraints.filter (fun c => c.violated m)).length ≤
      (match m.cognitoFederation with | none => [] | some cf => cfErrors cf).length := by
  cases hc : m.cognitoFederation with
  | none => simp [cfConstraints, presentAnd, hc]
  | some cf =>
    cases hn : cf.customProviderName <;>
      cases hsml : cf.customSAML <;>
      cases hoidc : cf.customOIDC <;>
      · simp only [cfConstraints, filter_length_cons, List.filter_nil,
          List.length_nil, presentAnd_none, presentAnd_some, hc, hn, hsml, hoidc, cfErrors,
          List.length_append, optErr_length, length_ite_single,
          length_ite_bool_single, length_ite_bool_nil, cnt_decide_bool, cnt_false,
          List.length_cons]
        omega

theorem guardrailsGroup_le (m : DeploymentManifestRaw) :
    (guardrailsConstraints.filter (fun c => c.violated m)).length ≤
      (match m.bedrock with | none => [] | some b => bedrockErrors b).length := by
  cases hb : m.bedrock with
  | none => simp [guardrailsConstraints, presentAnd, hb]
  | some b =>
    cases hg : b.guardrails with
    | none => simp [guardrailsConstraints, presentAnd, hb, hg, bedrockErrors]
    | some g =>
      simp only [guardrailsConstraints, filter_length_cons, List.filter_nil,
        List.length_nil, presentAnd_none, presentAnd_some, hb, hg, bedrockErrors, guardrailsErrors,
        List.length_append, optErr_length, length_ite_bool_single, cnt_false]
      omega

theorem ragKbExternal_piece_le (r : RagRaw) :
    cnt (presentAnd r.engines (fun e =>
      presentAnd e.knowledgeBase (fun k =>
        presentAnd k.external (fun xs => xs.any kbEntryViolated)))) ≤
      (ragKbExternalErrors r).length := by
  cases heng : r.engines with
  | none => simp [ragKbExternalErrors, cnt_false, presentAnd, heng]
  | some e =>
    cases hkb : e.knowledgeBase with
    | none => simp [ragKbExternalErrors, cnt_false, presentAnd, heng, hkb]
    | some k =>
      cases hx : k.external with
      | none => simp [ragKbExternalErrors, cnt_false, presentAnd, heng, hkb, hx]
      | some xs =>
        simpa [ragKbExternalErrors, cnt, presentAnd, heng, hkb, hx] using
          cnt_any_le_kbList "rag.engines.knowledgeBase.external" xs 0

theorem ragEmb_piece_le (r : RagRaw) :
    cnt (presentAnd r.embeddingsModels (fun xs => xs.any modelEntryViolated)) ≤
      (ragEmbErrors r).length := by
  cases hm : r.embeddingsModels with
  | none => simp [ragEmbErrors, cnt_false, presentAnd, hm]
  | some xs =>
    simpa [ragEmbErrors, cnt, presentAnd, hm] using
      cnt_any_le_modelList "rag.embeddingsModels" xs 0

theorem ragCross_piece_le (r : RagRaw) :
    cnt (presentAnd r.crossEncoderModels (fun xs => xs.any modelEntryViolated)) ≤
      (ragCrossErrors r).length := by
  cases hm : r.crossEncoderModels with
  | none => simp [ragCrossErrors, cnt_false, presentAnd, hm]
  | some xs =>
    simpa [ragCrossErrors, cnt, presentAnd, hm] using
      cnt_any_le_modelList "rag.crossEncoderModels" xs 0

theorem ragGroup_le (m : DeploymentManifestRaw) :
    (ragConstraints.filter (fun c => c.violated m)).length ≤
      (match m.rag with | none => [] | some r => ragErrors r).length := by
  cases hr : m.rag with
  | none => simp [ragConstraints, presentAnd, hr]
  | some r =>
    have h1 := ragKbExternal_piece_le r
    have h2 := ragEmb_piece_le r
    have h3 := ragCross_piece_le r
    simp only [ragConstraints, filter_length_cons, List.filter_nil,
      List.length_nil, presentAnd_none, presentAnd_some, hr, ragErrors, List.length_append,
      length_ite_bool_single]
    omega

theorem pipelineGroup_le (m : DeploymentManifestRaw) :
    (pipelineConstraints.filter (fun c => c.violated m)).length ≤
      (match m.pipeline with | none => [] | some p => pipelineErrors p).length := by
  cases hp : m.pipeline with
  | none => simp [pipelineConstraints, presentAnd, hp]
  | some p =>
    cases hex : p.codecommit.existingRepositoryName <;>
      cases hnw : p.codecommit.newRepositoryName <;>
      cases hbr : p.branch <;>
      · simp only [pipelineConstraints, filter_length_cons, List.filter_nil,
          List.length_nil, presentAnd_none, presentAnd_some, hp, hex, hnw, hbr, pipelineErrors,
          codecommitErrors, repoNameErrors, List.length_append,
          length_ite_single, length_ite_bool_single, cnt_decide_bool, length_ite_bool_nil,
          cnt_false]
        omega

theorem violatedCount_le_errors (m : DeploymentManifestRaw) :
    violatedCount m ≤ (validateErrors m).length := by
  have h1 := prefixGroup_le m
  have h2 := logArchiveGroup_le m
  have h3 := websiteGroup_le m
  have h4 := vpcGroup_le m
  have h5 := cfGroup_le m
  have h6 := guardrailsGroup_le m
  have h7 := ragGroup_le m
  have h8 := pipelineGroup_le m
  simp only [violatedCount, manifestConstraints, validateErrors,
    List.filter_append, List.length_append]
  omega

/-- C1: a document that violates N ≥ 1 independent field constraints of
the schema table fails validation and the reported error list has at
least N entries: the validator aggregates every violation instead of
stopping at the first one. -/
theorem validation_collects_all_violations (m : DeploymentManifestRaw)
    (N : Nat) (hN : 1 ≤ N) (h : N ≤ violatedCount m) :
    ∃ es, validateManifest m = Except.error es ∧ N ≤ es.length := by
  have hle : N ≤ (validateErrors m).length :=
    le_trans h (violatedCount_le_errors m)
  have hne : ¬validateErrors m = [] := by
    intro hnil
    rw [hnil] at hle
    simp at hle
    omega
  refine ⟨validateErrors m, ?_, hle⟩
  simp [validateManifest, hne]

/-- Witness for C1: a document breaking the prefix length bound and the
endpoint companion-pair refinement yields at least two reported errors. -/
theorem validation_collects_all_violations_witness :
    (1 ≤ 2 ∧ 2 ≤ violatedCount rawBadSample) ∧
      ∃ es, validateManifest rawBadSample = Except.error es ∧ 2 ≤ es.length :=
  ⟨⟨by decide, by decide⟩,
    validation_collects_all_violations rawBadSample 2 (by decide) (by decide)⟩

/-! ### Counting change records -/

theorem ite_path_flip (p tgt : String) :
    (if (p == tgt) then 1 else 0 : Nat) = if tgt = p then 1 else 0 := by
  by_cases h : tgt = p
  · subst h; simp
  · have hb : (p == tgt) = false := by
      simp only [beq_eq_false_iff_ne, ne_eq]
      exact fun hh => h hh.symm
    simp [hb, h]

theorem countP_path_single (tgt p : String) (old new : Val) :
    List.countP (fun r => r.path == tgt) [(⟨p, old, new⟩ : ChangeRecord)] =
      if tgt = p then 1 else 0 := by
  by_cases h : tgt = p
  · subst h; simp
  · rw [if_neg h]
    simp only [List.countP_cons, List.countP_nil]
    have : (p == tgt) = false := by
      simp [beq_iff_eq]
      exact fun hh => h hh.symm
    simp [this]

theorem countP_optRec_path (tgt p : String) (o : Option α) (f : α → ChangeRecord)
    (hf : ∀ a, (f a).path = p) :
    List.countP (fun r => r.path == tgt) (optRec o f) =
      if tgt = p then cnt o.isSome else 0 := by
  cases o with
  | none => simp [optRec, cnt]
  | some a =>
    have h1 : List.countP (fun r => r.path == tgt) [f a] =
        if ((f a).path == tgt) then 1 else 0 := by
      simp [List.countP_cons]
    simp only [optRec, Option.isSome_some, cnt_true]
    rw [h1, hf a, ite_path_flip]

theorem logArchiveRecords_countP (tgt : String) (bla o : Option String) :
    List.countP (fun r => r.path == tgt) (logArchiveRecords bla o) =
      if tgt = "logArchiveBucketName" then cnt (truthyStr o) else 0 := by
  cases o with
  | none => simp [logArchiveRecords, truthyStr, cnt]
  | some s =>
    by_cases hs : s = ""
    · simp [logArchiveRecords, hs, truthyStr, cnt]
    · simp only [logArchiveRecords, if_pos hs, truthyStr]
      rw [countP_path_single]
      simp [hs, cnt]

theorem vpcRecords_countP (tgt : String) (bv : VpcConfig) (o : Option VpcConfig) :
    List.countP (fun r => r.path == tgt) (vpcRecords bv o) =
      (if tgt = "vpc.vpcId" then cnt (o.bind VpcConfig.vpcId).isSome else 0) +
        (if tgt = "vpc.subnetIds" then cnt (o.bind VpcConfig.subnetIds).isSome else 0) +
        (if tgt = "vpc.executeApiVpcEndpointId" then
          cnt (o.bind VpcConfig.executeApiVpcEndpointId).isSome else 0) +
        (if tgt = "vpc.s3VpcEndpointId" then
          cnt (o.bind VpcConfig.s3VpcEndpointId).isSome else 0) +
        (if tgt = "vpc.s3VpcEndpointIps" then
          cnt (o.bind VpcConfig.s3VpcEndpointIps).isSome else 0) := by
  cases o with
  | none => simp [vpcRecords, cnt]
  | some v =>
    simp only [vpcRecords, List.countP_append, Option.some_bind]
    rw [countP_optRec_path tgt "vpc.vpcId" _ _ (fun _ => rfl),
      countP_optRec_path tgt "vpc.subnetIds" _ _ (fun _ => rfl),
      countP_optRec_path tgt "vpc.executeApiVpcEndpointId" _ _ (fun _ => rfl),
      countP_optRec_path tgt "vpc.s3VpcEndpointId" _ _ (fun _ => rfl),
      countP_optRec_path tgt "vpc.s3VpcEndpointIps" _ _ (fun _ => rfl)]

theorem cfRecords_countP (tgt : String) (bcf : CognitoFederation)
    (o : Option CognitoFederation) :
    List.countP (fun r => r.path == tgt) (cfRecords bcf o) =
      (if tgt = "cognitoFederation.enabled" then
        cnt (o.bind CognitoFederation.enabled).isSome else 0) +
        (if tgt = "cognitoFederation.autoRedirect" then
          cnt (o.bind CognitoFederation.autoRedirect).isSome else 0) +
        (if tgt = "cognitoFederation.customProviderName" then
          cnt (o.bind CognitoFederation.customProviderName).isSome else 0) +
        (if tgt = "cognitoFederation.customProviderType" then
          cnt (o.bind CognitoFederation.customProviderType).isSome else 0) +
        (if tgt = "cognitoFederation.cognitoDomain" then
          cnt (o.bind CognitoFederation.cognitoDomain).isSome else 0) +
        (if tgt = "cognitoFederation.customSAML.metadataDocumentUrl" then
          cnt (o.bind CognitoFederation.customSAML).isSome else 0) +
        (if tgt = "cognitoFederation.customOIDC.OIDCClient" then
          cnt (o.bind CognitoFederation.customOIDC).isSome else 0) +
        (if tgt = "cognitoFederation.customOIDC.OIDCSecret" then
          cnt (o.bind CognitoFederation.customOIDC).isSome else 0) +
        (if tgt = "cognitoFederation.customOIDC.OIDCIssuerURL" then
          cnt (o.bind CognitoFederation.customOIDC).isSome else 0) := by
  cases o with
  | none => simp [cfRecords, cnt]
  | some cf =>
    simp only [cfRecords, List.countP_append, Option.some_bind]
    rw [countP_optRec_path tgt "cognitoFederation.enabled" _ _ (fun _ => rfl),
      countP_optRec_path tgt "cognitoFederation.autoRedirect" _ _ (fun _ => rfl),
      countP_optRec_path tgt "cognitoFederation.customProviderName" _ _ (fun _ => rfl),
      countP_optRec_path tgt "cognitoFederation.customProviderType" _ _ (fun _ => rfl),
      countP_optRec_path tgt "cognitoFederation.cognitoDomain" _ _ (fun _ => rfl)]
    cases hsml : cf.customSAML <;> cases hoidc : cf.customOIDC <;>
      simp only [List.countP_nil, List.countP_cons, List.countP_append,
        ChangeRecord.path, ite_path_flip, Option.isSome_none,
        Option.isSome_some, cnt_false, cnt_true, ite_self] <;>
      omega

theorem bedrockRecords_countP (tgt : String) (bb : Option BedrockConfig)
    (o : Option BedrockManifest) :
    List.countP (fun r => r.path == tgt) (bedrockRecords bb o) =
      (if tgt = "bedrock.guardrails.enabled" then
        cnt (o.bind BedrockManifest.guardrails).isSome else 0) +
        (if tgt = "bedrock.guardrails.identifier" then
          cnt ((o.bind BedrockManifest.guardrails).bind GuardrailsManifest.identifier).isSome else 0) +
        (if tgt = "bedrock.guardrails.version" then
          cnt ((o.bind BedrockManifest.guardrails).bind GuardrailsManifest.version).isSome else 0) := by
  cases o with
  | none => simp [bedrockRecords, cnt]
  | some mb =>
    simp only [bedrockRecords, Option.some_bind]
    cases hg : mb.guardrails with
    | none =>
      simp only [List.countP_nil, Option.none_bind, Option.isSome_none,
        cnt_false, ite_self]
    | some g =>
      simp only [List.countP_append, List.countP_cons, List.countP_nil,
        ChangeRecord.path, ite_path_flip, Option.some_bind, Option.isSome_some,
        cnt_true]
      rw [countP_optRec_path tgt "bedrock.guardrails.identifier" _ _ (fun _ => rfl),
        countP_optRec_path tgt "bedrock.guardrails.version" _ _ (fun _ => rfl)]
      omega

theorem ragRecords_countP (tgt : String) (br : RagConfig) (o : Option RagManifest) :
    List.countP (fun r => r.path == tgt) (ragRecords br o) =
      (if tgt = "rag.enabled" then cnt (o.bind RagManifest.enabled).isSome else 0) +
        (if tgt = "rag.crossEncodingEnabled" then
          cnt (o.bind RagManifest.crossEncodingEnabled).isSome else 0) +
        (if tgt = "rag.engines.opensearch.enabled" then
          cnt ((o.bind RagManifest.engines).bind RagEnginesManifest.opensearch).isSome else 0) +
        (if tgt = "rag.engines.knowledgeBase.enabled" then
          cnt ((o.bind RagManifest.engines).bind RagEnginesManifest.knowledgeBase).isSome else 0) +
        (if tgt = "rag.engines.knowledgeBase.external" then
          cnt (((o.bind RagManifest.engines).bind RagEnginesManifest.knowledgeBase).bind
            KnowledgeBaseEngineManifest.external).isSome else 0) +
        (if tgt = "rag.embeddingsModels" then
          cnt (o.bind RagManifest.embeddingsModels).isSome else 0) +
        (if tgt = "rag.crossEncoderModels" then
          cnt (o.bind RagManifest.crossEncoderModels).isSome else 0) := by
  cases o with
  | none => simp [ragRecords, cnt]
  | some r =>
    simp only [ragRecords, Option.some_bind, List.countP_append]
    rw [countP_optRec_path tgt "rag.enabled" _ _ (fun _ => rfl),
      countP_optRec_path tgt "rag.crossEncodingEnabled" _ _ (fun _ => rfl),
      countP_optRec_path tgt "rag.embeddingsModels" _ _ (fun _ => rfl),
      countP_optRec_path tgt "rag.crossEncoderModels" _ _ (fun _ => rfl)]
    cases heng : r.engines with
    | none =>
      simp only [List.countP_nil, Option.none_bind, Option.isSome_none,
        cnt_false, ite_self]
    | some e =>
      simp only [Option.some_bind, List.countP_append]
      cases hos : e.opensearch with
      | none =>
        cases hkb : e.knowledgeBase with
        | none =>
          simp only [List.countP_nil, Option.none_bind, Option.isSome_none,
            cnt_false, ite_self]
        | some k =>
          simp only [List.countP_append, List.countP_cons, List.countP_nil,
            ChangeRecord.path, ite_path_flip, Option.some_bind,
            Option.none_bind, Option.isSome_none, Option.isSome_some,
            cnt_false, cnt_true, ite_self]
          rw [countP_optRec_path tgt "rag.engines.knowledgeBase.external" _ _ (fun _ => rfl)]
          omega
      | some os2 =>
        cases hkb : e.knowledgeBase with
        | none =>
          simp only [List.countP_append, List.countP_cons, List.countP_nil,
            ChangeRecord.path, ite_path_flip, Option.some_bind,
            Option.none_bind, Option.isSome_none, Option.isSome_some,
            cnt_false, cnt_true, ite_self]
          omega
        | some k =>
          simp only [List.countP_append, List.countP_cons, List.countP_nil,
            ChangeRecord.path, ite_path_flip, Option.some_bind,
            Option.none_bind, Option.isSome_none, Option.isSome_some,
            cnt_false, cnt_true, ite_self]
          rw [countP_optRec_path tgt "rag.engines.knowledgeBase.external" _ _ (fun _ => rfl)]
          omega

theorem pipelineRecords_countP (tgt : String) (bp : Option PipelineConfig)
    (o : Option PipelineConfig) :
    List.countP (fun r => r.path == tgt) (pipelineRecords bp o) =
      if tgt = "pipeline" then cnt o.isSome else 0 := by
  cases o with
  | none => simp [pipelineRecords, cnt]
  | some p =>
    simp only [pipelineRecords, List.countP_cons, List.countP_nil,
      ChangeRecord.path, ite_path_flip, Option.isSome_some, cnt_true]
    omega

theorem changeRecords_pathCount (base : SystemConfig) (m : DeploymentManifest)
    (tgt : String) :
    pathCount tgt (changeRecords base m) = expectedCount m tgt := by
  simp only [pathCount, changeRecords, List.countP_append, List.countP_cons,
    List.countP_nil, ChangeRecord.path, ite_path_flip]
  rw [countP_optRec_path tgt "enableWaf" _ _ (fun _ => rfl),
    countP_optRec_path tgt "createCMKs" _ _ (fun _ => rfl),
    countP_optRec_path tgt "advancedMonitoring" _ _ (fun _ => rfl),
    countP_optRec_path tgt "disableS3AccessLogs" _ _ (fun _ => rfl),
    logArchiveRecords_countP,
    countP_optRec_path tgt "privateWebsite" _ _ (fun _ => rfl),
    countP_optRec_path tgt "certificate" _ _ (fun _ => rfl),
    countP_optRec_path tgt "domain" _ _ (fun _ => rfl),
    vpcRecords_countP, cfRecords_countP, bedrockRecords_countP,
    ragRecords_countP, pipelineRecords_countP]
  simp only [expectedCount]
  omega

/-! ### Claims about the locator and validator -/

/-- C9: when the locator finds no manifest (no candidate path exists),
resolution returns the base configuration deep-equal and an empty change
log. -/
theorem no_manifest_returns_base (envManifest : Option String)
    (fileExists : String → Bool)
    (readManifest : String → DeploymentManifestRaw) (base : SystemConfig)
    (h : findManifestFile envManifest fileExists = none) :
    loadConfig envManifest fileExists readManifest base =
      Except.ok (base, ([] : List ChangeRecord)) := by
  simp [loadConfig, loadDeploymentManifest, h]

/-- Witness for C9: an empty filesystem yields the untouched base
configuration and zero change records. -/
theorem no_manifest_returns_base_witness :
    findManifestFile none (fun _ => false) = none ∧
      loadConfig none (fun _ => false) (fun _ => rawOkSample) baseSample =
        Except.ok (baseSample, ([] : List ChangeRecord)) :=
  ⟨rfl, no_manifest_returns_base none (fun _ => false) (fun _ => rawOkSample)
    baseSample rfl⟩

/-- C6: an override whose vpc group has a non-empty `s3VpcEndpointIps`
but no `s3VpcEndpointId` fails validation with an error attributed to
`vpc.s3VpcEndpointId`; the dependency is asymmetric — a vpc group without
`s3VpcEndpointIps` never violates the companion rule, whatever its
`s3VpcEndpointId`. -/
theorem s3_companion_pair_rule (m : DeploymentManifestRaw) (v : VpcConfig)
    (ips : List String) (hv : m.vpc = some v)
    (hips : v.s3VpcEndpointIps = some ips) (hne : ips ≠ [])
    (hid : v.s3VpcEndpointId = none) :
    (∃ es, validateManifest m = Except.error es ∧
      (⟨"vpc.s3VpcEndpointId",
        "s3VpcEndpointId is required when s3VpcEndpointIps is provided"⟩ : FieldError) ∈ es) ∧
      ∀ w : VpcConfig, w.s3VpcEndpointIps = none → s3CompanionViolated w = false := by
  constructor
  · have hlen : 0 < ips.length := List.length_pos.mpr hne
    have hviol : s3CompanionViolated v = true := by
      simp [s3CompanionViolated, hips, hid, truthyStr, hlen]
    have hmem : (⟨"vpc.s3VpcEndpointId",
        "s3VpcEndpointId is required when s3VpcEndpointIps is provided"⟩ : FieldError) ∈
        validateErrors m := by
      simp [validateErrors, hv, vpcErrors, hviol, List.mem_append]
    have hnil : ¬validateErrors m = [] := fun hn => by simp [hn] at hmem
    exact ⟨validateErrors m, by simp [validateManifest, hnil], hmem⟩
  · intro w hw
    simp [s3CompanionViolated, hw]

/-- Witness for C6: the concrete document with `s3VpcEndpointIps =
["10.0.1.5"]` and no endpoint id is rejected at `vpc.s3VpcEndpointId`. -/
theorem s3_companion_pair_rule_witness :
    (∃ es, validateManifest rawVpcIpsSample = Except.error es ∧
      (⟨"vpc.s3VpcEndpointId",
        "s3VpcEndpointId is required when s3VpcEndpointIps is provided"⟩ : FieldError) ∈ es) ∧
      ∀ w : VpcConfig, w.s3VpcEndpointIps = none → s3CompanionViolated w = false :=
  s3_companion_pair_rule rawVpcIpsSample ⟨none, none, none, none, some ["10.0.1.5"]⟩
    ["10.0.1.5"] rfl rfl (by decide) rfl

/-- C7: a pipeline codecommit section passes validation only when exactly
one of `existingRepositoryName` and `createNew: true` is supplied — if
both or neither are truthy, validation fails with the mutual-exclusivity
error at `pipeline.codecommit`. -/
theorem codecommit_exactly_one_rule (m : DeploymentManifestRaw)
    (p : PipelineRaw) (hp : m.pipeline = some p)
    (h : truthyStr p.codecommit.existingRepositoryName =
      truthyBool p.codecommit.createNew) :
    ∃ es, validateManifest m = Except.error es ∧
      (⟨"pipeline.codecommit",
        "Provide either existingRepositoryName OR createNew: true, not both"⟩ : FieldError) ∈ es := by
  have hviol : ccExactlyOneViolated p.codecommit = true := by
    simp [ccExactlyOneViolated, h]
  have hmem : (⟨"pipeline.codecommit",
      "Provide either existingRepositoryName OR createNew: true, not both"⟩ : FieldError) ∈
      validateErrors m := by
    simp [validateErrors, hp, pipelineErrors, codecommitErrors, hviol,
      List.mem_append]
  have hnil : ¬validateErrors m = [] := fun hn => by simp [hn] at hmem
  exact ⟨validateErrors m, by simp [validateManifest, hnil], hmem⟩

/-- Witness for C7: both concrete documents — both repository options
supplied, and neither supplied — are rejected at `pipeline.codecommit`. -/
theorem codecommit_exactly_one_rule_witness :
    (∃ es, validateManifest rawPipelineBothSample = Except.error es ∧
      (⟨"pipeline.codecommit",
        "Provide either existingRepositoryName OR createNew: true, not both"⟩ : FieldError) ∈ es) ∧
      ∃ es, validateManifest rawPipelineNeitherSample = Except.error es ∧
        (⟨"pipeline.codecommit",
          "Provide either existingRepositoryName OR createNew: true, not both"⟩ : FieldError) ∈ es :=
  ⟨codecommit_exactly_one_rule rawPipelineBothSample
      ⟨true, ⟨some "my-repo", some true, some "new-repo", none⟩, none, none, none⟩
      rfl (by decide),
    codecommit_exactly_one_rule rawPipelineNeitherSample
      ⟨true, ⟨none, none, none, none⟩, none, none, none⟩ rfl (by decide)⟩

/-! ### Claims about the merge engine -/

/-- C5: list-valued fields present in a validated override replace the
base lists wholesale — the resolved list is exactly the override list,
with no element-level union. -/
theorem list_fields_replaced_wholesale (base : SystemConfig)
    (m : DeploymentManifest) (r : RagManifest) (hr : m.rag = some r) :
    (∀ xs, r.embeddingsModels = some xs →
      (applyManifestOverrides base m).1.rag.embeddingsModels = xs) ∧
      (∀ xs, r.crossEncoderModels = some xs →
        (applyManifestOverrides base m).1.rag.crossEncoderModels = xs) ∧
      (∀ e k xs, r.engines = some e → e.knowledgeBase = some k →
        k.external = some xs →
        (applyManifestOverrides base m).1.rag.engines.knowledgeBase.external = xs) := by
  refine ⟨?_, ?_, ?_⟩
  · intro xs hxs
    simp [applyManifestOverrides, mergedConfig, mergeRag, hr, hxs]
  · intro xs hxs
    simp [applyManifestOverrides, mergedConfig, mergeRag, hr, hxs]
  · intro e k xs he hk hx
    simp [applyManifestOverrides, mergedConfig, mergeRag, hr, he, hk, hx]

/-- Witness for C5: a base list of 3 model descriptors overridden by a
1-element list resolves to exactly that 1 element, never a union of 4. -/
theorem list_fields_replaced_wholesale_witness :
    baseSample.rag.embeddingsModels.length = 3 ∧
      (applyManifestOverrides baseSample manifestSample).1.rag.embeddingsModels =
        [⟨ModelProvider.bedrock, "embed-model", some 1536, some true⟩] ∧
      (applyManifestOverrides baseSample manifestSample).1.rag.embeddingsModels.length = 1 := by
  have h := (list_fields_replaced_wholesale baseSample manifestSample
    ⟨some true, none, some ⟨some ⟨true⟩, some ⟨true, some [kbSample]⟩⟩,
      some [⟨ModelProvider.bedrock, "embed-model", some 1536, some true⟩], none⟩
    rfl).1 [⟨ModelProvider.bedrock, "embed-model", some 1536, some true⟩] rfl
  exact ⟨rfl, h, by rw [h]; rfl⟩

/-- C8: an override carrying `logArchiveBucketName: ""` passes the field
unharmed through schema validation (the empty string adds no issue and
changes nothing about the outcome), and the merge treats it as absent:
the base value is kept and no change record for the field is emitted. -/
theorem logArchive_empty_string_sentinel (mr : DeploymentManifestRaw)
    (base : SystemConfig) (m : DeploymentManifest)
    (hm : m.logArchiveBucketName = some "") :
    (validateErrors { mr with logArchiveBucketName := some "" } =
      validateErrors { mr with logArchiveBucketName := none }) ∧
      (applyManifestOverrides base m).1.logArchiveBucketName =
        base.logArchiveBucketName ∧
      pathCount "logArchiveBucketName" (applyManifestOverrides base m).2 = 0 := by
  refine ⟨?_, ?_, ?_⟩
  · simp [validateErrors, logArchiveErrors]
  · simp [applyManifestOverrides, mergedConfig, hm]
  · simp only [applyManifestOverrides]
    rw [changeRecords_pathCount]
    simp [expectedCount, hm, truthyStr, cnt]

/-- Witness for C8: merging `logArchiveBucketName: ""` over a base with a
named bucket keeps the base bucket and logs nothing for the field. -/
theorem logArchive_empty_string_sentinel_witness :
    (validateErrors { rawOkSample with logArchiveBucketName := some "" } =
      validateErrors { rawOkSample with logArchiveBucketName := none }) ∧
      (applyManifestOverrides baseSample manifestEmptyLaSample).1.logArchiveBucketName =
        baseSample.logArchiveBucketName ∧
      pathCount "logArchiveBucketName"
        (applyManifestOverrides baseSample manifestEmptyLaSample).2 = 0 :=
  logArchive_empty_string_sentinel rawOkSample baseSample manifestEmptyLaSample rfl

/-- C10: the empty string is explicitly permitted for `certificate` (it
adds no validation issue), and unlike the `logArchiveBucketName`
sentinel the merge does replace the base certificate with the empty
string and emits exactly one change record for it. -/
theorem certificate_empty_string_not_sentinel (mr : DeploymentManifestRaw)
    (base : SystemConfig) (m : DeploymentManifest)
    (hm : m.certificate = some "") :
    (validateErrors { mr with certificate := some "" } =
      validateErrors { mr with certificate := none }) ∧
      (applyManifestOverrides base m).1.certificate = some "" ∧
      pathCount "certificate" (applyManifestOverrides base m).2 = 1 := by
  refine ⟨?_, ?_, ?_⟩
  · simp [validateErrors, orEmptyErr, orEmptyViol]
  · simp [applyManifestOverrides, mergedConfig, hm]
  · simp only [applyManifestOverrides]
    rw [changeRecords_pathCount]
    simp [expectedCount, hm, cnt]

/-- Witness for C10: merging `certificate: ""` over a base with a
certificate clears it to the empty string with one change record. -/
theorem certificate_empty_string_not_sentinel_witness :
    (validateErrors { rawOkSample with certificate := some "" } =
      validateErrors { rawOkSample with certificate := none }) ∧
      (applyManifestOverrides baseSample manifestSample).1.certificate = some "" ∧
      pathCount "certificate" (applyManifestOverrides baseSample manifestSample).2 = 1 :=
  certificate_empty_string_not_sentinel rawOkSample baseSample manifestSample rfl

/-- C2: a nested group present in a validated override (vpc,
cognitoFederation, rag) is merged field-by-field into the corresponding
base group — the base group being created when absent — never replaced
wholesale: every group field present in the override takes the override
value, and every group field not mentioned keeps the base value. -/
theorem nested_groups_merge_fieldwise (base : SystemConfig)
    (m : DeploymentManifest) :
    (∀ v, m.vpc = some v →
      ∃ g, (applyManifestOverrides base m).1.vpc = some g ∧
        (v.vpcId = none → g.vpcId = base.vpc.bind VpcConfig.vpcId) ∧
        (∀ x, v.vpcId = some x → g.vpcId = some x) ∧
        (v.subnetIds = none → g.subnetIds = base.vpc.bind VpcConfig.subnetIds) ∧
        (∀ x, v.subnetIds = some x → g.subnetIds = some x) ∧
        (v.executeApiVpcEndpointId = none →
          g.executeApiVpcEndpointId = base.vpc.bind VpcConfig.executeApiVpcEndpointId) ∧
        (∀ x, v.executeApiVpcEndpointId = some x → g.executeApiVpcEndpointId = some x) ∧
        (v.s3VpcEndpointId = none →
          g.s3VpcEndpointId = base.vpc.bind VpcConfig.s3VpcEndpointId) ∧
        (∀ x, v.s3VpcEndpointId = some x → g.s3VpcEndpointId = some x) ∧
        (v.s3VpcEndpointIps = none →
          g.s3VpcEndpointIps = base.vpc.bind VpcConfig.s3VpcEndpointIps) ∧
        (∀ x, v.s3VpcEndpointIps = some x → g.s3VpcEndpointIps = some x)) ∧
      (∀ cf, m.cognitoFederation = some cf →
        ∃ g, (applyManifestOverrides base m).1.cognitoFederation = some g ∧
          (cf.enabled = none →
            g.enabled = base.cognitoFederation.bind CognitoFederation.enabled) ∧
          (∀ x, cf.enabled = some x → g.enabled = some x) ∧
          (cf.autoRedirect = none →
            g.autoRedirect = base.cognitoFederation.bind CognitoFederation.autoRedirect) ∧
          (∀ x, cf.autoRedirect = some x → g.autoRedirect = some x) ∧
          (cf.customProviderName = none →
            g.customProviderName = base.cognitoFederation.bind CognitoFederation.customProviderName) ∧
          (∀ x, cf.customProviderName = some x → g.customProviderName = some x) ∧
          (cf.customProviderType = none →
            g.customProviderType = base.cognitoFederation.bind CognitoFederation.customProviderType) ∧
          (∀ x, cf.customProviderType = some x → g.customProviderType = some x) ∧
          (cf.cognitoDomain = none →
            g.cognitoDomain = base.cognitoFederation.bind CognitoFederation.cognitoDomain) ∧
          (∀ x, cf.cognitoDomain = some x → g.cognitoDomain = some x) ∧
          (cf.customSAML = none →
            g.customSAML = base.cognitoFederation.bind CognitoFederation.customSAML) ∧
          (∀ s, cf.customSAML = some s → g.customSAML = some ⟨s.metadataDocumentUrl⟩) ∧
          (cf.customOIDC = none →
            g.customOIDC = base.cognitoFederation.bind CognitoFederation.customOIDC) ∧
          (∀ c, cf.customOIDC = some c →
            g.customOIDC = some ⟨c.OIDCClient, c.OIDCSecret, c.OIDCIssuerURL⟩)) ∧
      (∀ r, m.rag = some r →
        (r.enabled = none →
          (applyManifestOverrides base m).1.rag.enabled = base.rag.enabled) ∧
        (∀ x, r.enabled = some x →
          (applyManifestOverrides base m).1.rag.enabled = x) ∧
        (r.crossEncodingEnabled = none →
          (applyManifestOverrides base m).1.rag.crossEncodingEnabled =
            base.rag.crossEncodingEnabled) ∧
        (∀ x, r.crossEncodingEnabled = some x →
          (applyManifestOverrides base m).1.rag.crossEncodingEnabled = x) ∧
        (r.engines = none →
          (applyManifestOverrides base m).1.rag.engines = base.rag.engines) ∧
        (∀ e, r.engines = some e →
          (e.opensearch = none →
            (applyManifestOverrides base m).1.rag.engines.opensearch =
              base.rag.engines.opensearch) ∧
          (∀ os2, e.opensearch = some os2 →
            (applyManifestOverrides base m).1.rag.engines.opensearch = ⟨os2.enabled⟩) ∧
          (e.knowledgeBase = none →
            (applyManifestOverrides base m).1.rag.engines.knowledgeBase =
              base.rag.engines.knowledgeBase) ∧
          (∀ k, e.knowledgeBase = some k →
            (applyManifestOverrides base m).1.rag.engines.knowledgeBase.enabled =
              k.enabled ∧
            (k.external = none →
              (applyManifestOverrides base m).1.rag.engines.knowledgeBase.external =
                base.rag.engines.knowledgeBase.external) ∧
            (∀ xs, k.external = some xs →
              (applyManifestOverrides base m).1.rag.engines.knowledgeBase.external = xs))) ∧
        (r.embeddingsModels = none →
          (applyManifestOverrides base m).1.rag.embeddingsModels =
            base.rag.embeddingsModels) ∧
        (∀ xs, r.embeddingsModels = some xs →
          (applyManifestOverrides base m).1.rag.embeddingsModels = xs) ∧
        (r.crossEncoderModels = none →
          (applyManifestOverrides base m).1.rag.crossEncoderModels =
            base.rag.crossEncoderModels) ∧
        (∀ xs, r.crossEncoderModels = some xs →
          (applyManifestOverrides base m).1.rag.crossEncoderModels = xs)) := by
  refine ⟨?_, ?_, ?_⟩
  · intro v hv
    refine ⟨mergeVpc (base.vpc.getD emptyVpc) v,
      by simp [applyManifestOverrides, mergedConfig, hv], ?_, ?_, ?_, ?_, ?_,
      ?_, ?_, ?_, ?_, ?_⟩
    · intro h; cases hb : base.vpc <;> simp [mergeVpc, emptyVpc, h, hb]
    · intro x hx; simp [mergeVpc, hx]
    · intro h; cases hb : base.vpc <;> simp [mergeVpc, emptyVpc, h, hb]
    · intro x hx; simp [mergeVpc, hx]
    · intro h; cases hb : base.vpc <;> simp [mergeVpc, emptyVpc, h, hb]
    · intro x hx; simp [mergeVpc, hx]
    · intro h; cases hb : base.vpc <;> simp [mergeVpc, emptyVpc, h, hb]
    · intro x hx; simp [mergeVpc, hx]
    · intro h; cases hb : base.vpc <;> simp [mergeVpc, emptyVpc, h, hb]
    · intro x hx; simp [mergeVpc, hx]
  · intro cf hc
    refine ⟨mergeCf (base.cognitoFederation.getD emptyCognitoFederation) cf,
      by simp [applyManifestOverrides, mergedConfig, hc], ?_, ?_, ?_, ?_, ?_,
      ?_, ?_, ?_, ?_, ?_, ?_, ?_, ?_, ?_⟩
    · intro h
      cases hb : base.cognitoFederation <;>
        simp [mergeCf, emptyCognitoFederation, h, hb]
    · intro x hx; simp [mergeCf, hx]
    · intro h
      cases hb : base.cognitoFederation <;>
        simp [mergeCf, emptyCognitoFederation, h, hb]
    · intro x hx; simp [mergeCf, hx]
    · intro h
      cases hb : base.cognitoFederation <;>
        simp [mergeCf, emptyCognitoFederation, h, hb]
    · intro x hx; simp [mergeCf, hx]
    · intro h
      cases hb : base.cognitoFederation <;>
        simp [mergeCf, emptyCognitoFederation, h, hb]
    · intro x hx; simp [mergeCf, hx]
    · intro h
      cases hb : base.cognitoFederation <;>
        simp [mergeCf, emptyCognitoFederation, h, hb]
    · intro x hx; simp [mergeCf, hx]
    · intro h
      cases hb : base.cognitoFederation <;>
        simp [mergeCf, emptyCognitoFederation, h, hb]
    · intro s hs; simp [mergeCf, hs]
    · intro h
      cases hb : base.cognitoFederation <;>
        simp [mergeCf, emptyCognitoFederation, h, hb]
    · intro c hc2; simp [mergeCf, hc2]
  · intro r hr
    refine ⟨?_, ?_, ?_, ?_, ?_, ?_, ?_, ?_, ?_, ?_⟩
    · intro h; simp [applyManifestOverrides, mergedConfig, mergeRag, hr, h]
    · intro x hx; simp [applyManifestOverrides, mergedConfig, mergeRag, hr, hx]
    · intro h; simp [applyManifestOverrides, mergedConfig, mergeRag, hr, h]
    · intro x hx; simp [applyManifestOverrides, mergedConfig, mergeRag, hr, hx]
    · intro h; simp [applyManifestOverrides, mergedConfig, mergeRag, hr, h]
    · intro e he
      refine ⟨?_, ?_, ?_, ?_⟩
      · intro h
        simp [applyManifestOverrides, mergedConfig, mergeRag, hr, he, h]
      · intro os2 hos
        simp [applyManifestOverrides, mergedConfig, mergeRag, hr, he, hos]
      · intro h
        simp [applyManifestOverrides, mergedConfig, mergeRag, hr, he, h]
      · intro k hk
        refine ⟨?_, ?_, ?_⟩
        · simp [applyManifestOverrides, mergedConfig, mergeRag, hr, he, hk]
        · intro h
          simp [applyManifestOverrides, mergedConfig, mergeRag, hr, he, hk, h]
        · intro xs hx
          simp [applyManifestOverrides, mergedConfig, mergeRag, hr, he, hk, hx]
    · intro h; simp [applyManifestOverrides, mergedConfig, mergeRag, hr, h]
    · intro xs hx; simp [applyManifestOverrides, mergedConfig, mergeRag, hr, hx]
    · intro h; simp [applyManifestOverrides, mergedConfig, mergeRag, hr, h]
    · intro xs hx; simp [applyManifestOverrides, mergedConfig, mergeRag, hr, hx]

/-- Witness for C2: overriding only `vpc.vpcId` keeps the base group's
`subnetIds` while taking the override's `vpcId`. -/
theorem nested_groups_merge_fieldwise_witness :
    ∃ g, (applyManifestOverrides baseSample manifestSample).1.vpc = some g ∧
      g.vpcId = some "vpc-0123456789abcdef0" ∧
      g.subnetIds = some ["subnet-base1", "subnet-base2"] := by
  obtain ⟨g, hg, h1, h2, h3, h4, -⟩ :=
    (nested_groups_merge_fieldwise baseSample manifestSample).1
      ⟨some "vpc-0123456789abcdef0", none, none, none, none⟩ rfl
  exact ⟨g, hg, h2 _ rfl, by rw [h3 rfl]; rfl⟩

/-- Counterexample for C4 as stated, on documents the schema accepts:
(a) `rawEmptyLaOkSample` passes validation and carries the present scalar
`logArchiveBucketName: ""`, yet the merge keeps the base value and emits
no record for the path; (b) `rawPipelineOkSample` passes validation and
carries the present scalar `pipeline.enabled`, yet no change record
references that path (the pipeline group is logged as one record at path
`pipeline`). -/
theorem scalar_override_replacement_cex :
    (validateManifest rawEmptyLaOkSample = .ok manifestEmptyLaOkSample ∧
      manifestEmptyLaOkSample.logArchiveBucketName = some "" ∧
      (applyManifestOverrides baseSample manifestEmptyLaOkSample).1.logArchiveBucketName ≠
        some "" ∧
      pathCount "logArchiveBucketName"
        (applyManifestOverrides baseSample manifestEmptyLaOkSample).2 = 0) ∧
      (validateManifest rawPipelineOkSample = .ok manifestPipelineOkSample ∧
        manifestPipelineOkSample.pipeline.isSome = true ∧
        pathCount "pipeline.enabled"
          (applyManifestOverrides baseSample manifestPipelineOkSample).2 = 0) := by
  refine ⟨⟨rfl, by decide, by decide, by decide⟩, ⟨rfl, by decide, by decide⟩⟩

/-- C4 (amended): every scalar field present in a validated override
outside the atomically-replaced `pipeline` group is directly replaced in
the resolved configuration, with exactly one change record referencing
its field path emitted even when the new value equals the old — except
that an empty-string `logArchiveBucketName` is treated as absent (no
replacement, no record), and pipeline members are covered by the single
record at path `pipeline`. -/
theorem scalar_override_replacement_amended (base : SystemConfig)
    (m : DeploymentManifest) :
    ((applyManifestOverrides base m).1.prefixStr = m.prefixStr ∧
      pathCount "prefix" (applyManifestOverrides base m).2 = 1) ∧
      (∀ x, m.enableWaf = some x →
        (applyManifestOverrides base m).1.enableWaf = x ∧
        pathCount "enableWaf" (applyManifestOverrides base m).2 = 1) ∧
      (∀ x, m.createCMKs = some x →
        (applyManifestOverrides base m).1.createCMKs = x ∧
        pathCount "createCMKs" (applyManifestOverrides base m).2 = 1) ∧
      (∀ x, m.advancedMonitoring = some x →
        (applyManifestOverrides base m).1.advancedMonitoring = x ∧
        pathCount "advancedMonitoring" (applyManifestOverrides base m).2 = 1) ∧
      (∀ x, m.disableS3AccessLogs = some x →
        (applyManifestOverrides base m).1.disableS3AccessLogs = x ∧
        pathCount "disableS3AccessLogs" (applyManifestOverrides base m).2 = 1) ∧
      (∀ s, m.logArchiveBucketName = some s → s ≠ "" →
        (applyManifestOverrides base m).1.logArchiveBucketName = some s ∧
        pathCount "logArchiveBucketName" (applyManifestOverrides base m).2 = 1) ∧
      (∀ x, m.privateWebsite = some x →
        (applyManifestOverrides base m).1.privateWebsite = x ∧
        pathCount "privateWebsite" (applyManifestOverrides base m).2 = 1) ∧
      (∀ s, m.certificate = some s →
        (applyManifestOverrides base m).1.certificate = some s ∧
        pathCount "certificate" (applyManifestOverrides base m).2 = 1) ∧
      (∀ s, m.domain = some s →
        (applyManifestOverrides base m).1.domain = some s ∧
        pathCount "domain" (applyManifestOverrides base m).2 = 1) ∧
      (∀ v x, m.vpc = some v → v.vpcId = some x →
        (applyManifestOverrides base m).1.vpc.bind VpcConfig.vpcId = some x ∧
        pathCount "vpc.vpcId" (applyManifestOverrides base m).2 = 1) ∧
      (∀ v x, m.vpc = some v → v.executeApiVpcEndpointId = some x →
        (applyManifestOverrides base m).1.vpc.bind VpcConfig.executeApiVpcEndpointId =
          some x ∧
        pathCount "vpc.executeApiVpcEndpointId" (applyManifestOverrides base m).2 = 1) ∧
      (∀ v x, m.vpc = some v → v.s3VpcEndpointId = some x →
        (applyManifestOverrides base m).1.vpc.bind VpcConfig.s3VpcEndpointId = some x ∧
        pathCount "vpc.s3VpcEndpointId" (applyManifestOverrides base m).2 = 1) ∧
      (∀ cf x, m.cognitoFederation = some cf → cf.enabled = some x →
        (applyManifestOverrides base m).1.cognitoFederation.bind
          CognitoFederation.enabled = some x ∧
        pathCount "cognitoFederation.enabled" (applyManifestOverrides base m).2 = 1) ∧
      (∀ cf x, m.cognitoFederation = some cf → cf.autoRedirect = some x →
        (applyManifestOverrides base m).1.cognitoFederation.bind
          CognitoFederation.autoRedirect = some x ∧
        pathCount "cognitoFederation.autoRedirect" (applyManifestOverrides base m).2 = 1) ∧
      (∀ cf x, m.cognitoFederation = some cf → cf.customProviderName = some x →
        (applyManifestOverrides base m).1.cognitoFederation.bind
          CognitoFederation.customProviderName = some x ∧
        pathCount "cognitoFederation.customProviderName"
          (applyManifestOverrides base m).2 = 1) ∧
      (∀ cf x, m.cognitoFederation = some cf → cf.customProviderType = some x →
        (applyManifestOverrides base m).1.cognitoFederation.bind
          CognitoFederation.customProviderType = some x ∧
        pathCount "cognitoFederation.customProviderType"
          (applyManifestOverrides base m).2 = 1) ∧
      (∀ cf x, m.cognitoFederation = some cf → cf.cognitoDomain = some x →
        (applyManifestOverrides base m).1.cognitoFederation.bind
          CognitoFederation.cognitoDomain = some x ∧
        pathCount "cognitoFederation.cognitoDomain"
          (applyManifestOverrides base m).2 = 1) ∧
      (∀ cf s, m.cognitoFederation = some cf → cf.customSAML = some s →
        (applyManifestOverrides base m).1.cognitoFederation.bind
          CognitoFederation.customSAML = some ⟨s.metadataDocumentUrl⟩ ∧
        pathCount "cognitoFederation.customSAML.metadataDocumentUrl"
          (applyManifestOverrides base m).2 = 1) ∧
      (∀ cf c, m.cognitoFederation = some cf → cf.customOIDC = some c →
        (applyManifestOverrides base m).1.cognitoFederation.bind
          CognitoFederation.customOIDC =
            some ⟨c.OIDCClient, c.OIDCSecret, c.OIDCIssuerURL⟩ ∧
        pathCount "cognitoFederation.customOIDC.OIDCClient"
          (applyManifestOverrides base m).2 = 1 ∧
        pathCount "cognitoFederation.customOIDC.OIDCSecret"
          (applyManifestOverrides base m).2 = 1 ∧
        pathCount "cognitoFederation.customOIDC.OIDCIssuerURL"
          (applyManifestOverrides base m).2 = 1) ∧
      (∀ mb g, m.bedrock = some mb → mb.guardrails = some g →
        ((applyManifestOverrides base m).1.bedrock.bind
          BedrockConfig.guardrails).map GuardrailsConfig.enabled = some g.enabled ∧
        pathCount "bedrock.guardrails.enabled" (applyManifestOverrides base m).2 = 1) ∧
      (∀ mb g s, m.bedrock = some mb → mb.guardrails = some g →
        g.identifier = some s →
        ((applyManifestOverrides base m).1.bedrock.bind
          BedrockConfig.guardrails).map GuardrailsConfig.identifier = some s ∧
        pathCount "bedrock.guardrails.identifier" (applyManifestOverrides base m).2 = 1) ∧
      (∀ mb g s, m.bedrock = some mb → mb.guardrails = some g →
        g.version = some s →
        ((applyManifestOverrides base m).1.bedrock.bind
          BedrockConfig.guardrails).map GuardrailsConfig.version = some s ∧
        pathCount "bedrock.guardrails.version" (applyManifestOverrides base m).2 = 1) ∧
      (∀ r x, m.rag = some r → r.enabled = some x →
        (applyManifestOverrides base m).1.rag.enabled = x ∧
        pathCount "rag.enabled" (applyManifestOverrides base m).2 = 1) ∧
      (∀ r x, m.rag = some r → r.crossEncodingEnabled = some x →
        (applyManifestOverrides base m).1.rag.crossEncodingEnabled = x ∧
        pathCount "rag.crossEncodingEnabled" (applyManifestOverrides base m).2 = 1) ∧
      (∀ r e os2, m.rag = some r → r.engines = some e → e.opensearch = some os2 →
        (applyManifestOverrides base m).1.rag.engines.opensearch.enabled =
          os2.enabled ∧
        pathCount "rag.engines.opensearch.enabled"
          (applyManifestOverrides base m).2 = 1) ∧
      (∀ r e k, m.rag = some r → r.engines = some e → e.knowledgeBase = some k →
        (applyManifestOverrides base m).1.rag.engines.knowledgeBase.enabled =
          k.enabled ∧
        pathCount "rag.engines.knowledgeBase.enabled"
          (applyManifestOverrides base m).2 = 1) := by
  refine ⟨⟨?_, ?_⟩, ?_, ?_, ?_, ?_, ?_, ?_, ?_, ?_, ?_, ?_, ?_, ?_, ?_, ?_,
    ?_, ?_, ?_, ?_, ?_, ?_, ?_, ?_, ?_, ?_, ?_⟩
  · simp [applyManifestOverrides, mergedConfig]
  · simp only [applyManifestOverrides]
    rw [changeRecords_pathCount]
    simp [expectedCount]
  all_goals intros
  all_goals first
    | refine ⟨?_, ?_, ?_, ?_⟩
    | refine ⟨?_, ?_⟩
  all_goals first
    | (simp only [applyManifestOverrides]
       rw [changeRecords_pathCount]
       simp [expectedCount, truthyStr, cnt, *])
    | (simp [applyManifestOverrides, mergedConfig, mergeVpc, mergeCf,
        mergeGuardrails, mergeRag, *])

/-- Witness for the amended C4: overriding `enableWaf: true` replaces the
value and emits exactly one record at path `enableWaf`. -/
theorem scalar_override_replacement_amended_witness :
    (applyManifestOverrides baseSample manifestSample).1.enableWaf = true ∧
      pathCount "enableWaf" (applyManifestOverrides baseSample manifestSample).2 = 1 :=
  (scalar_override_replacement_amended baseSample manifestSample).2.1 true rfl

theorem isSome_false_iff (o : Option α) : o.isSome = false ↔ o = none := by
  cases o <;> simp

/-- Counterexample for C3 as stated, on documents the schema accepts:
`rawPipelineOkSample` and `rawGuardrailsOkSample` both pass validation,
and each validated document omits a field path whose resolved value
nevertheless differs from the base value — `pipeline.notificationEmail`
is wiped by the atomic pipeline replacement, and
`bedrock.guardrails.version` is materialised as the empty string by the
guardrails initialisation. -/
theorem presence_absence_frame_cex :
    (validateManifest rawPipelineOkSample = .ok manifestPipelineOkSample ∧
      manifestHas manifestPipelineOkSample FieldPath.pPipelineNotificationEmail = false ∧
      configAt (applyManifestOverrides baseSample manifestPipelineOkSample).1
        FieldPath.pPipelineNotificationEmail ≠
        configAt baseSample FieldPath.pPipelineNotificationEmail) ∧
      (validateManifest rawGuardrailsOkSample = .ok manifestGuardrailsOkSample ∧
        manifestHas manifestGuardrailsOkSample FieldPath.pGuardrailsVersion = false ∧
        configAt (applyManifestOverrides baseSample manifestGuardrailsOkSample).1
          FieldPath.pGuardrailsVersion ≠
          configAt baseSample FieldPath.pGuardrailsVersion) := by
  refine ⟨⟨rfl, by decide, by decide⟩, ⟨rfl, by decide, by decide⟩⟩

theorem applyManifestOverrides_fst (base : SystemConfig)
    (m : DeploymentManifest) :
    (applyManifestOverrides base m).1 = mergedConfig base m := rfl

theorem mergedConfig_prefixStr (base : SystemConfig) (m : DeploymentManifest) :
    (mergedConfig base m).prefixStr = m.prefixStr := rfl

theorem mergedConfig_enableWaf (base : SystemConfig) (m : DeploymentManifest) :
    (mergedConfig base m).enableWaf = m.enableWaf.getD base.enableWaf := rfl

theorem mergedConfig_createCMKs (base : SystemConfig) (m : DeploymentManifest) :
    (mergedConfig base m).createCMKs = m.createCMKs.getD base.createCMKs := rfl

theorem mergedConfig_advancedMonitoring (base : SystemConfig)
    (m : DeploymentManifest) :
    (mergedConfig base m).advancedMonitoring =
      m.advancedMonitoring.getD base.advancedMonitoring := rfl

theorem mergedConfig_disableS3AccessLogs (base : SystemConfig)
    (m : DeploymentManifest) :
    (mergedConfig base m).disableS3AccessLogs =
      m.disableS3AccessLogs.getD base.disableS3AccessLogs := rfl

theorem mergedConfig_logArchiveBucketName (base : SystemConfig)
    (m : DeploymentManifest) :
    (mergedConfig base m).logArchiveBucketName =
      match m.logArchiveBucketName with
      | some s => if s ≠ "" then some s else base.logArchiveBucketName
      | none => base.logArchiveBucketName := rfl

theorem mergedConfig_privateWebsite (base : SystemConfig)
    (m : DeploymentManifest) :
    (mergedConfig base m).privateWebsite =
      m.privateWebsite.getD base.privateWebsite := rfl

theorem mergedConfig_certificate (base : SystemConfig) (m : DeploymentManifest) :
    (mergedConfig base m).certificate =
      match m.certificate with
      | some s => some s
      | none => base.certificate := rfl

theorem mergedConfig_domain (base : SystemConfig) (m : DeploymentManifest) :
    (mergedConfig base m).domain =
      match m.domain with
      | some s => some s
      | none => base.domain := rfl

theorem mergedConfig_vpc (base : SystemConfig) (m : DeploymentManifest) :
    (mergedConfig base m).vpc =
      match m.vpc with
      | none => base.vpc
      | some v => some (mergeVpc (base.vpc.getD emptyVpc) v) := rfl

theorem mergedConfig_cognitoFederation (base : SystemConfig)
    (m : DeploymentManifest) :
    (mergedConfig base m).cognitoFederation =
      match m.cognitoFederation with
      | none => base.cognitoFederation
      | some cf =>
        some (mergeCf (base.cognitoFederation.getD emptyCognitoFederation) cf) := rfl

theorem mergedConfig_bedrock (base : SystemConfig) (m : DeploymentManifest) :
    (mergedConfig base m).bedrock =
      match m.bedrock with
      | none => base.bedrock
      | some mb =>
        match mb.guardrails with
        | none => base.bedrock
        | some g =>
          some ⟨some (mergeGuardrails
            ((base.bedrock.bind BedrockConfig.guardrails).getD initGuardrails) g)⟩ := rfl

theorem mergedConfig_rag (base : SystemConfig) (m : DeploymentManifest) :
    (mergedConfig base m).rag =
      match m.rag with
      | none => base.rag
      | some r => mergeRag base.rag r := rfl

theorem mergedConfig_pipeline (base : SystemConfig) (m : DeploymentManifest) :
    (mergedConfig base m).pipeline =
      match m.pipeline with
      | none => base.pipeline
      | some p =>
        some ⟨p.enabled,
          ⟨p.codecommit.existingRepositoryName, p.codecommit.createNew,
           p.codecommit.newRepositoryName, p.codecommit.seedOnCreate⟩,
          p.branch, p.requireApproval, p.notificationEmail⟩ := rfl

/-- C3 (amended): for every field path omitted from a validated override
document the resolved configuration keeps the base value — except for
paths strictly inside the `pipeline` group when the pipeline section is
present (the group is replaced atomically), and for
`bedrock.guardrails.identifier`/`version` when the override supplies a
guardrails section and the base configuration has none (the merge
initialises them to empty strings). -/
theorem presence_absence_frame_amended (base : SystemConfig)
    (m : DeploymentManifest) (p : FieldPath)
    (h1 : manifestHas m p = false)
    (h2 : isPipelineSubPath p = true → m.pipeline = none)
    (h3 : isGuardrailsInitPath p = true →
      (m.bedrock.bind BedrockManifest.guardrails = none ∨
        (base.bedrock.bind BedrockConfig.guardrails).isSome = true)) :
    configAt (applyManifestOverrides base m).1 p = configAt base p := by
  cases p
  case pPrefix => simp [manifestHas] at h1
  case pEnableWaf =>
    cases ho : m.enableWaf <;>
      simp_all [manifestHas, configAt, applyManifestOverrides_fst, mergedConfig_enableWaf, cOptStr, cOptBool]
  case pCreateCMKs =>
    cases ho : m.createCMKs <;>
      simp_all [manifestHas, configAt, applyManifestOverrides_fst, mergedConfig_createCMKs, cOptStr, cOptBool]
  case pAdvancedMonitoring =>
    cases ho : m.advancedMonitoring <;>
      simp_all [manifestHas, configAt, applyManifestOverrides_fst, mergedConfig_advancedMonitoring, cOptStr, cOptBool]
  case pDisableS3AccessLogs =>
    cases ho : m.disableS3AccessLogs <;>
      simp_all [manifestHas, configAt, applyManifestOverrides_fst, mergedConfig_disableS3AccessLogs, cOptStr, cOptBool]
  case pLogArchiveBucketName =>
    cases ho : m.logArchiveBucketName <;>
      simp_all [manifestHas, configAt, applyManifestOverrides_fst, mergedConfig_logArchiveBucketName, cOptStr, cOptBool]
  case pPrivateWebsite =>
    cases ho : m.privateWebsite <;>
      simp_all [manifestHas, configAt, applyManifestOverrides_fst, mergedConfig_privateWebsite, cOptStr, cOptBool]
  case pCertificate =>
    cases ho : m.certificate <;>
      simp_all [manifestHas, configAt, applyManifestOverrides_fst, mergedConfig_certificate, cOptStr, cOptBool]
  case pDomain =>
    cases ho : m.domain <;>
      simp_all [manifestHas, configAt, applyManifestOverrides_fst, mergedConfig_domain, cOptStr, cOptBool]
  case pVpc =>
    cases hv : m.vpc <;>
      simp_all [manifestHas, configAt, applyManifestOverrides_fst, mergedConfig_vpc]
  case pVpcVpcId =>
    cases hv : m.vpc <;> cases hb : base.vpc <;>
      simp_all [manifestHas, configAt, applyManifestOverrides_fst, mergedConfig_vpc, mergeVpc, emptyVpc, cOptStr,
        cOptStrList, isSome_false_iff]
  case pVpcSubnetIds =>
    cases hv : m.vpc <;> cases hb : base.vpc <;>
      simp_all [manifestHas, configAt, applyManifestOverrides_fst, mergedConfig_vpc, mergeVpc, emptyVpc, cOptStr,
        cOptStrList, isSome_false_iff]
  case pVpcExecuteApiVpcEndpointId =>
    cases hv : m.vpc <;> cases hb : base.vpc <;>
      simp_all [manifestHas, configAt, applyManifestOverrides_fst, mergedConfig_vpc, mergeVpc, emptyVpc, cOptStr,
        cOptStrList, isSome_false_iff]
  case pVpcS3VpcEndpointId =>
    cases hv : m.vpc <;> cases hb : base.vpc <;>
      simp_all [manifestHas, configAt, applyManifestOverrides_fst, mergedConfig_vpc, mergeVpc, emptyVpc, cOptStr,
        cOptStrList, isSome_false_iff]
  case pVpcS3VpcEndpointIps =>
    cases hv : m.vpc <;> cases hb : base.vpc <;>
      simp_all [manifestHas, configAt, applyManifestOverrides_fst, mergedConfig_vpc, mergeVpc, emptyVpc, cOptStr,
        cOptStrList, isSome_false_iff]
  case pCf =>
    cases hc : m.cognitoFederation <;>
      simp_all [manifestHas, configAt, applyManifestOverrides_fst, mergedConfig_cognitoFederation]
  case pCfEnabled =>
    cases hc : m.cognitoFederation <;> cases hb : base.cognitoFederation <;>
      simp_all [manifestHas, configAt, applyManifestOverrides_fst, mergedConfig_cognitoFederation, mergeCf,
        emptyCognitoFederation, cOptStr, cOptBool, cOptPtype, isSome_false_iff]
  case pCfAutoRedirect =>
    cases hc : m.cognitoFederation <;> cases hb : base.cognitoFederation <;>
      simp_all [manifestHas, configAt, applyManifestOverrides_fst, mergedConfig_cognitoFederation, mergeCf,
        emptyCognitoFederation, cOptStr, cOptBool, cOptPtype, isSome_false_iff]
  case pCfCustomProviderName =>
    cases hc : m.cognitoFederation <;> cases hb : base.cognitoFederation <;>
      simp_all [manifestHas, configAt, applyManifestOverrides_fst, mergedConfig_cognitoFederation, mergeCf,
        emptyCognitoFederation, cOptStr, cOptBool, cOptPtype, isSome_false_iff]
  case pCfCustomProviderType =>
    cases hc : m.cognitoFederation <;> cases hb : base.cognitoFederation <;>
      simp_all [manifestHas, configAt, applyManifestOverrides_fst, mergedConfig_cognitoFederation, mergeCf,
        emptyCognitoFederation, cOptStr, cOptBool, cOptPtype, isSome_false_iff]
  case pCfCognitoDomain =>
    cases hc : m.cognitoFederation <;> cases hb : base.cognitoFederation <;>
      simp_all [manifestHas, configAt, applyManifestOverrides_fst, mergedConfig_cognitoFederation, mergeCf,
        emptyCognitoFederation, cOptStr, cOptBool, cOptPtype, isSome_false_iff]
  case pCfCustomSAML =>
    cases hc : m.cognitoFederation <;> cases hb : base.cognitoFederation <;>
      simp_all [manifestHas, configAt, applyManifestOverrides_fst, mergedConfig_cognitoFederation, mergeCf,
        emptyCognitoFederation, cOptStr, cOptBool, cOptPtype, isSome_false_iff]
  case pCfSamlMetadataDocumentUrl =>
    cases hc : m.cognitoFederation <;> cases hb : base.cognitoFederation <;>
      simp_all [manifestHas, configAt, applyManifestOverrides_fst, mergedConfig_cognitoFederation, mergeCf,
        emptyCognitoFederation, cOptStr, cOptBool, cOptPtype, isSome_false_iff]
  case pCfCustomOIDC =>
    cases hc : m.cognitoFederation <;> cases hb : base.cognitoFederation <;>
      simp_all [manifestHas, configAt, applyManifestOverrides_fst, mergedConfig_cognitoFederation, mergeCf,
        emptyCognitoFederation, cOptStr, cOptBool, cOptPtype, isSome_false_iff]
  case pCfOidcClient =>
    cases hc : m.cognitoFederation <;> cases hb : base.cognitoFederation <;>
      simp_all [manifestHas, configAt, applyManifestOverrides_fst, mergedConfig_cognitoFederation, mergeCf,
        emptyCognitoFederation, cOptStr, cOptBool, cOptPtype, isSome_false_iff]
  case pCfOidcSecret =>
    cases hc : m.cognitoFederation <;> cases hb : base.cognitoFederation <;>
      simp_all [manifestHas, configAt, applyManifestOverrides_fst, mergedConfig_cognitoFederation, mergeCf,
        emptyCognitoFederation, cOptStr, cOptBool, cOptPtype, isSome_false_iff]
  case pCfOidcIssuerURL =>
    cases hc : m.cognitoFederation <;> cases hb : base.cognitoFederation <;>
      simp_all [manifestHas, configAt, applyManifestOverrides_fst, mergedConfig_cognitoFederation, mergeCf,
        emptyCognitoFederation, cOptStr, cOptBool, cOptPtype, isSome_false_iff]
  case pBedrock =>
    cases hmb : m.bedrock <;>
      simp_all [manifestHas, configAt, applyManifestOverrides_fst, mergedConfig_bedrock, cOptBool, cOptStr,
        isSome_false_iff]
  case pBedrockGuardrails =>
    cases hmb : m.bedrock <;>
      simp_all [manifestHas, configAt, applyManifestOverrides_fst, mergedConfig_bedrock, cOptBool, cOptStr,
        isSome_false_iff]
  case pGuardrailsEnabled =>
    cases hmb : m.bedrock <;>
      simp_all [manifestHas, configAt, applyManifestOverrides_fst, mergedConfig_bedrock, cOptBool, cOptStr,
        isSome_false_iff]
  case pGuardrailsIdentifier =>
    rcases h3 rfl with h3a | h3b
    · cases hmb : m.bedrock <;>
        simp_all [manifestHas, configAt, applyManifestOverrides_fst, mergedConfig_bedrock, cOptStr, isSome_false_iff]
    · obtain ⟨bg0, hbg⟩ := Option.isSome_iff_exists.mp h3b
      cases hmb : m.bedrock with
      | none =>
        simp_all [manifestHas, configAt, applyManifestOverrides_fst, mergedConfig_bedrock, cOptStr, isSome_false_iff]
      | some mb =>
        cases hg : mb.guardrails with
        | none =>
          simp_all [manifestHas, configAt, applyManifestOverrides_fst, mergedConfig_bedrock, cOptStr, isSome_false_iff]
        | some g =>
          simp_all [manifestHas, configAt, applyManifestOverrides_fst, mergedConfig_bedrock, mergeGuardrails,
            initGuardrails, cOptStr, isSome_false_iff]
  case pGuardrailsVersion =>
    rcases h3 rfl with h3a | h3b
    · cases hmb : m.bedrock <;>
        simp_all [manifestHas, configAt, applyManifestOverrides_fst, mergedConfig_bedrock, cOptStr, isSome_false_iff]
    · obtain ⟨bg0, hbg⟩ := Option.isSome_iff_exists.mp h3b
      cases hmb : m.bedrock with
      | none =>
        simp_all [manifestHas, configAt, applyManifestOverrides_fst, mergedConfig_bedrock, cOptStr, isSome_false_iff]
      | some mb =>
        cases hg : mb.guardrails with
        | none =>
          simp_all [manifestHas, configAt, applyManifestOverrides_fst, mergedConfig_bedrock, cOptStr, isSome_false_iff]
        | some g =>
          simp_all [manifestHas, configAt, applyManifestOverrides_fst, mergedConfig_bedrock, mergeGuardrails,
            initGuardrails, cOptStr, isSome_false_iff]
  case pRag =>
    cases hr : m.rag <;>
      simp_all [manifestHas, configAt, applyManifestOverrides_fst, mergedConfig_rag, mergeRag, isSome_false_iff]
  case pRagEnabled =>
    cases hr : m.rag <;>
      simp_all [manifestHas, configAt, applyManifestOverrides_fst, mergedConfig_rag, mergeRag, isSome_false_iff]
  case pRagCrossEncodingEnabled =>
    cases hr : m.rag <;>
      simp_all [manifestHas, configAt, applyManifestOverrides_fst, mergedConfig_rag, mergeRag, isSome_false_iff]
  case pRagEngines =>
    cases hr : m.rag <;>
      simp_all [manifestHas, configAt, applyManifestOverrides_fst, mergedConfig_rag, mergeRag, isSome_false_iff]
  case pRagEmbeddingsModels =>
    cases hr : m.rag <;>
      simp_all [manifestHas, configAt, applyManifestOverrides_fst, mergedConfig_rag, mergeRag, isSome_false_iff]
  case pRagCrossEncoderModels =>
    cases hr : m.rag <;>
      simp_all [manifestHas, configAt, applyManifestOverrides_fst, mergedConfig_rag, mergeRag, isSome_false_iff]
  case pRagOpensearch =>
    cases hr : m.rag with
    | none =>
      simp_all [manifestHas, configAt, applyManifestOverrides_fst, mergedConfig_rag]
    | some r =>
      cases hre : r.engines with
      | none =>
        simp_all [manifestHas, configAt, applyManifestOverrides_fst, mergedConfig_rag, mergeRag, isSome_false_iff]
      | some e =>
        simp_all [manifestHas, configAt, applyManifestOverrides_fst, mergedConfig_rag, mergeRag, isSome_false_iff]
  case pRagOpensearchEnabled =>
    cases hr : m.rag with
    | none =>
      simp_all [manifestHas, configAt, applyManifestOverrides_fst, mergedConfig_rag]
    | some r =>
      cases hre : r.engines with
      | none =>
        simp_all [manifestHas, configAt, applyManifestOverrides_fst, mergedConfig_rag, mergeRag, isSome_false_iff]
      | some e =>
        simp_all [manifestHas, configAt, applyManifestOverrides_fst, mergedConfig_rag, mergeRag, isSome_false_iff]
  case pRagKnowledgeBase =>
    cases hr : m.rag with
    | none =>
      simp_all [manifestHas, configAt, applyManifestOverrides_fst, mergedConfig_rag]
    | some r =>
      cases hre : r.engines with
      | none =>
        simp_all [manifestHas, configAt, applyManifestOverrides_fst, mergedConfig_rag, mergeRag, isSome_false_iff]
      | some e =>
        simp_all [manifestHas, configAt, applyManifestOverrides_fst, mergedConfig_rag, mergeRag, isSome_false_iff]
  case pRagKnowledgeBaseEnabled =>
    cases hr : m.rag with
    | none =>
      simp_all [manifestHas, configAt, applyManifestOverrides_fst, mergedConfig_rag]
    | some r =>
      cases hre : r.engines with
      | none =>
        simp_all [manifestHas, configAt, applyManifestOverrides_fst, mergedConfig_rag, mergeRag, isSome_false_iff]
      | some e =>
        simp_all [manifestHas, configAt, applyManifestOverrides_fst, mergedConfig_rag, mergeRag, isSome_false_iff]
  case pRagKnowledgeBaseExternal =>
    cases hr : m.rag with
    | none =>
      simp_all [manifestHas, configAt, applyManifestOverrides_fst, mergedConfig_rag]
    | some r =>
      cases hre : r.engines with
      | none =>
        simp_all [manifestHas, configAt, applyManifestOverrides_fst, mergedConfig_rag, mergeRag, isSome_false_iff]
      | some e =>
        cases hkb : e.knowledgeBase with
        | none =>
          simp_all [manifestHas, configAt, applyManifestOverrides_fst, mergedConfig_rag, mergeRag, isSome_false_iff]
        | some k =>
          simp_all [manifestHas, configAt, applyManifestOverrides_fst, mergedConfig_rag, mergeRag, isSome_false_iff]
  case pPipeline =>
    cases hp : m.pipeline <;>
      simp_all [manifestHas, configAt, applyManifestOverrides_fst, mergedConfig_pipeline]
  case pPipelineEnabled =>
    have hp := h2 rfl
    simp_all [manifestHas, configAt, applyManifestOverrides_fst, mergedConfig_pipeline, cOptStr, cOptBool]
  case pPipelineCodecommit =>
    have hp := h2 rfl
    simp_all [manifestHas, configAt, applyManifestOverrides_fst, mergedConfig_pipeline, cOptStr, cOptBool]
  case pPipelineExistingRepositoryName =>
    have hp := h2 rfl
    simp_all [manifestHas, configAt, applyManifestOverrides_fst, mergedConfig_pipeline, cOptStr, cOptBool]
  case pPipelineCreateNew =>
    have hp := h2 rfl
    simp_all [manifestHas, configAt, applyManifestOverrides_fst, mergedConfig_pipeline, cOptStr, cOptBool]
  case pPipelineNewRepositoryName =>
    have hp := h2 rfl
    simp_all [manifestHas, configAt, applyManifestOverrides_fst, mergedConfig_pipeline, cOptStr, cOptBool]
  case pPipelineSeedOnCreate =>
    have hp := h2 rfl
    simp_all [manifestHas, configAt, applyManifestOverrides_fst, mergedConfig_pipeline, cOptStr, cOptBool]
  case pPipelineBranch =>
    have hp := h2 rfl
    simp_all [manifestHas, configAt, applyManifestOverrides_fst, mergedConfig_pipeline, cOptStr, cOptBool]
  case pPipelineRequireApproval =>
    have hp := h2 rfl
    simp_all [manifestHas, configAt, applyManifestOverrides_fst, mergedConfig_pipeline, cOptStr, cOptBool]
  case pPipelineNotificationEmail =>
    have hp := h2 rfl
    simp_all [manifestHas, configAt, applyManifestOverrides_fst, mergedConfig_pipeline, cOptStr, cOptBool]

/-- Witness for the amended C3: `domain` is omitted from the sample
override, and the resolved configuration keeps the base value there. -/
theorem presence_absence_frame_amended_witness :
    manifestHas manifestSample FieldPath.pDomain = false ∧
      configAt (applyManifestOverrides baseSample manifestSample).1
        FieldPath.pDomain = configAt baseSample FieldPath.pDomain :=
  ⟨by decide,
    presence_absence_frame_amended baseSample manifestSample FieldPath.pDomain
      (by decide) (by decide) (by decide)⟩

end Chatbot
